import Mathlib

/-!
Verification of `src/experimentation/data_processors.py`, an A/B-test
statistics pipeline built from three classes:

* `ABDataProcessor` — significance engine: p-value, significance flag,
  color classification, uplift confidence interval, final rounding;
* `ExperimentSummaryStats` — aggregation of observations into per-group
  summary statistics and the left join of control statistics onto each
  treatment row;
* `DFABTestProcessor` — pooled variances, z-score and treatment uplift.

The Python code computes with IEEE doubles under numpy/pandas semantics:
NaN propagates through arithmetic, finite / 0 gives ±infinity (or NaN for
0 / 0), and every comparison with NaN is false.  We embed the numeric
domain as `Val`: either NaN, +inf, -inf, or an exact finite value
(a rational; every IEEE double is rational).  The library functions
`scipy.stats.norm.cdf`, `scipy.stats.norm.ppf` and `np.sqrt` are external
to the repository; they enter the embedding as function parameters
`phi`, `ppf`, `sqrtF : ℚ → ℚ` constrained by hypotheses stating the
standard mathematical facts used (monotonicity-free point facts such as
`sqrtF (9/100) = 3/10`), and are lifted to `Val` by wrappers that encode
the documented special-value behaviour of the library functions.
-/

namespace ABTestPipeline

/-- Numeric domain of the pipeline: an IEEE-double-like value.  `fin q`
is an exact finite value; `nan` models NaN (and pandas null, which is NaN
in float columns); `pinf`/`ninf` model ±infinity.  Signed zero is not
modelled: none of the verified computations produce a negative zero. -/
inductive Val where
  | nan : Val
  | pinf : Val
  | ninf : Val
  | fin : ℚ → Val
deriving DecidableEq

/-- True exactly on NaN. -/
def Val.isNan : Val → Bool
  | .nan => true
  | _ => false

/-- True exactly on finite values. -/
def Val.isFinite : Val → Bool
  | .fin _ => true
  | _ => false

/-- IEEE addition on `Val` (numpy semantics): NaN propagates,
`+inf + -inf = NaN`, infinities absorb finite values. -/
def Val.add : Val → Val → Val
  | .nan, _ => .nan
  | _, .nan => .nan
  | .pinf, .ninf => .nan
  | .ninf, .pinf => .nan
  | .pinf, _ => .pinf
  | _, .pinf => .pinf
  | .ninf, _ => .ninf
  | _, .ninf => .ninf
  | .fin a, .fin b => .fin (a + b)

/-- IEEE negation on `Val`. -/
def Val.neg : Val → Val
  | .nan => .nan
  | .pinf => .ninf
  | .ninf => .pinf
  | .fin a => .fin (-a)

/-- IEEE subtraction on `Val`, as addition of the negation. -/
def Val.sub (a b : Val) : Val := a.add b.neg

/-- IEEE multiplication on `Val`: NaN propagates, `inf * 0 = NaN`,
otherwise infinities obey the sign rules. -/
def Val.mul : Val → Val → Val
  | .nan, _ => .nan
  | _, .nan => .nan
  | .pinf, .pinf => .pinf
  | .pinf, .ninf => .ninf
  | .ninf, .pinf => .ninf
  | .ninf, .ninf => .pinf
  | .pinf, .fin b => if 0 < b then .pinf else if b < 0 then .ninf else .nan
  | .fin a, .pinf => if 0 < a then .pinf else if a < 0 then .ninf else .nan
  | .ninf, .fin b => if 0 < b then .ninf else if b < 0 then .pinf else .nan
  | .fin a, .ninf => if 0 < a then .ninf else if a < 0 then .pinf else .nan
  | .fin a, .fin b => .fin (a * b)

/-- IEEE division on `Val` (numpy semantics, positive zero denominator):
NaN propagates, `inf / inf = NaN`, `finite / 0` is ±infinity by the sign
of the numerator and `0 / 0 = NaN`, `finite / inf = 0`. -/
def Val.div : Val → Val → Val
  | .nan, _ => .nan
  | _, .nan => .nan
  | .pinf, .pinf => .nan
  | .pinf, .ninf => .nan
  | .ninf, .pinf => .nan
  | .ninf, .ninf => .nan
  | .pinf, .fin b => if 0 ≤ b then .pinf else .ninf
  | .ninf, .fin b => if 0 ≤ b then .ninf else .pinf
  | .fin _, .pinf => .fin 0
  | .fin _, .ninf => .fin 0
  | .fin a, .fin b =>
      if b = 0 then (if 0 < a then .pinf else if a < 0 then .ninf else .nan)
      else .fin (a / b)

instance : Add Val := ⟨Val.add⟩

instance : Neg Val := ⟨Val.neg⟩

instance : Sub Val := ⟨Val.sub⟩

instance : Mul Val := ⟨Val.mul⟩

instance : Div Val := ⟨Val.div⟩

/-- IEEE `<=` comparison as used by pandas: any comparison with NaN is
false; otherwise the order extends the finite order with ±infinity. -/
def Val.leB : Val → Val → Bool
  | .nan, _ => false
  | _, .nan => false
  | .ninf, _ => true
  | _, .pinf => true
  | .pinf, _ => false
  | .fin _, .ninf => false
  | .fin a, .fin b => decide (a ≤ b)

/-- IEEE `>=` comparison: any comparison with NaN is false. -/
def Val.geB (a b : Val) : Bool := Val.leB b a

/-- IEEE `<` comparison: any comparison with NaN is false. -/
def Val.ltB : Val → Val → Bool
  | .nan, _ => false
  | _, .nan => false
  | .pinf, _ => false
  | _, .ninf => false
  | .ninf, _ => true
  | .fin _, .pinf => true
  | .fin a, .fin b => decide (a < b)

/-- Lift a model `sqrtF : ℚ → ℚ` of `np.sqrt` on nonnegative finite
arguments to `Val`: `sqrt NaN = NaN`, `sqrt (+inf) = +inf`,
`sqrt` of anything negative is NaN. -/
def sqrtV (sqrtF : ℚ → ℚ) : Val → Val
  | .nan => .nan
  | .pinf => .pinf
  | .ninf => .nan
  | .fin q => if q < 0 then .nan else .fin (sqrtF q)

/-- Lift a model `phi : ℚ → ℚ` of the standard normal CDF
`scipy.stats.norm.cdf` on finite arguments to `Val`:
`cdf NaN = NaN`, `cdf (+inf) = 1`, `cdf (-inf) = 0`. -/
def phiV (phi : ℚ → ℚ) : Val → Val
  | .nan => .nan
  | .pinf => .fin 1
  | .ninf => .fin 0
  | .fin q => .fin (phi q)

/-- Round a rational to an integer, ties to even — the rounding mode of
IEEE doubles and hence of `numpy.round`/`pandas.DataFrame.round`. -/
def roundHalfEven (x : ℚ) : ℤ :=
  if x - ⌊x⌋ < 1/2 then ⌊x⌋
  else if 1/2 < x - ⌊x⌋ then ⌊x⌋ + 1
  else if ⌊x⌋ % 2 = 0 then ⌊x⌋ else ⌊x⌋ + 1

/-- Round a rational to `dp` decimal places, ties to even, the semantics
of `DataFrame.round(dp)` on the exact values. -/
def roundTo (dp : ℕ) (x : ℚ) : ℚ :=
  ((roundHalfEven (x * (10:ℚ) ^ dp) : ℤ) : ℚ) / (10:ℚ) ^ dp

/-- `DataFrame.round` leaves NaN and infinities unchanged. -/
def roundV (dp : ℕ) : Val → Val
  | .fin q => .fin (roundTo dp q)
  | v => v

theorem le_roundHalfEven (x : ℚ) : ⌊x⌋ ≤ roundHalfEven x := by
  unfold roundHalfEven
  split_ifs <;> omega

theorem roundHalfEven_le (x : ℚ) : roundHalfEven x ≤ ⌊x⌋ + 1 := by
  unfold roundHalfEven
  split_ifs <;> omega

theorem roundHalfEven_mono {x y : ℚ} (h : x ≤ y) :
    roundHalfEven x ≤ roundHalfEven y := by
  have hf : (⌊x⌋ : ℤ) ≤ ⌊y⌋ := Int.floor_le_floor h
  rcases lt_or_eq_of_le hf with hlt | heq
  · calc roundHalfEven x ≤ ⌊x⌋ + 1 := roundHalfEven_le x
      _ ≤ ⌊y⌋ := by omega
      _ ≤ roundHalfEven y := le_roundHalfEven y
  · have hq : ((⌊x⌋ : ℤ) : ℚ) = ((⌊y⌋ : ℤ) : ℚ) := by rw [heq]
    unfold roundHalfEven
    rw [heq] at hq ⊢
    have hfr : x - ((⌊y⌋ : ℤ) : ℚ) ≤ y - ((⌊y⌋ : ℤ) : ℚ) := by linarith
    split_ifs <;> first | omega | (exfalso; linarith)

theorem roundTo_mono (dp : ℕ) {x y : ℚ} (h : x ≤ y) :
    roundTo dp x ≤ roundTo dp y := by
  unfold roundTo
  have hpow : (0:ℚ) < (10:ℚ) ^ dp := by positivity
  have hs : x * (10:ℚ) ^ dp ≤ y * (10:ℚ) ^ dp :=
    mul_le_mul_of_nonneg_right h (le_of_lt hpow)
  have hr : roundHalfEven (x * (10:ℚ) ^ dp) ≤ roundHalfEven (y * (10:ℚ) ^ dp) :=
    roundHalfEven_mono hs
  exact div_le_div_of_nonneg_right (by exact_mod_cast hr) hpow.le

/-- One output row of the baseline joiner
(`ExperimentSummaryStats.join_control_to_variant`): treatment statistics
with suffix `_EXP`, matched control statistics with suffix `_CONTROL`. -/
structure JoinedRow where
  VARIANT_NAME : String
  VARIANT_DEFAULT : ℚ
  KPI : String
  mean_EXP : Val
  var_EXP : Val
  count_EXP : Val
  mean_CONTROL : Val
  var_CONTROL : Val
  count_CONTROL : Val
deriving DecidableEq

/-- A joined row extended with the derived columns added by
`DFABTestProcessor.get_metrics`. -/
structure MetricsRow extends JoinedRow where
  POOLED_VARIANCE : Val
  _POOLED_VARIANCE : Val
  Z_SCORE : Val
  TREATMENT_UPLIFT : Val
deriving DecidableEq

/-- `DFABTestProcessor.get_metrics`: adds `POOLED_VARIANCE`
(`var_CONTROL/count_CONTROL + var_EXP/count_EXP`), `_POOLED_VARIANCE`
(`((count_CONTROL-1)*var_CONTROL + (count_EXP-1)*var_EXP) /
(count_CONTROL + count_EXP - 2)`), `Z_SCORE`
(`(mean_EXP - mean_CONTROL) / np.sqrt(POOLED_VARIANCE)`) and
`TREATMENT_UPLIFT` (`(mean_EXP - mean_CONTROL) / mean_CONTROL`).
All pandas column arithmetic is row-wise, so the table operation is the
map of this function over the rows; `sqrtF` models `np.sqrt` on
nonnegative finite arguments. -/
def get_metrics (sqrtF : ℚ → ℚ) (r : JoinedRow) : MetricsRow :=
  { toJoinedRow := r
    POOLED_VARIANCE := r.var_CONTROL / r.count_CONTROL + r.var_EXP / r.count_EXP
    _POOLED_VARIANCE :=
      (r.var_CONTROL * (r.count_CONTROL - Val.fin 1)
        + r.var_EXP * (r.count_EXP - Val.fin 1))
        / (r.count_CONTROL + r.count_EXP - Val.fin 2)
    Z_SCORE :=
      (r.mean_EXP - r.mean_CONTROL)
        / sqrtV sqrtF (r.var_CONTROL / r.count_CONTROL + r.var_EXP / r.count_EXP)
    TREATMENT_UPLIFT := (r.mean_EXP - r.mean_CONTROL) / r.mean_CONTROL }

/-- A metrics row after `DFABTestProcessor.rename_df_cols`: the six
summary columns renamed (`var_EXP ↦ TREATMENT_VARIANCE`,
`var_CONTROL ↦ CONTROL_VARIANCE`, `mean_EXP ↦ TREATMENT_MEAN`,
`mean_CONTROL ↦ CONTROL_MEAN`, `count_EXP ↦ TREATMENT_USERS`,
`count_CONTROL ↦ CONTROL_USERS`), all other columns carried through. -/
structure RenamedRow where
  VARIANT_NAME : String
  VARIANT_DEFAULT : ℚ
  KPI : String
  TREATMENT_MEAN : Val
  TREATMENT_VARIANCE : Val
  TREATMENT_USERS : Val
  CONTROL_MEAN : Val
  CONTROL_VARIANCE : Val
  CONTROL_USERS : Val
  POOLED_VARIANCE : Val
  _POOLED_VARIANCE : Val
  Z_SCORE : Val
  TREATMENT_UPLIFT : Val
deriving DecidableEq

/-- `DFABTestProcessor.rename_df_cols`: pure column renaming. -/
def rename_df_cols (m : MetricsRow) : RenamedRow :=
  { VARIANT_NAME := m.VARIANT_NAME
    VARIANT_DEFAULT := m.VARIANT_DEFAULT
    KPI := m.KPI
    TREATMENT_MEAN := m.mean_EXP
    TREATMENT_VARIANCE := m.var_EXP
    TREATMENT_USERS := m.count_EXP
    CONTROL_MEAN := m.mean_CONTROL
    CONTROL_VARIANCE := m.var_CONTROL
    CONTROL_USERS := m.count_CONTROL
    POOLED_VARIANCE := m.POOLED_VARIANCE
    _POOLED_VARIANCE := m._POOLED_VARIANCE
    Z_SCORE := m.Z_SCORE
    TREATMENT_UPLIFT := m.TREATMENT_UPLIFT }

/-- `DFABTestProcessor.process_df` on one row: `get_metrics` (in place)
then `rename_df_cols`. -/
def process_df (sqrtF : ℚ → ℚ) (r : JoinedRow) : RenamedRow :=
  rename_df_cols (get_metrics sqrtF r)

/-- A renamed row after `ABDataProcessor.calculate_p_value` added the
`P_VALUE` column. -/
structure PRow extends RenamedRow where
  P_VALUE : Val
deriving DecidableEq

/-- `ABDataProcessor.calculate_p_value`:
`P_VALUE = 1 - stats.norm.cdf(Z_SCORE)` (one-sided test); `phi` models
`stats.norm.cdf` on finite arguments. -/
def calculate_p_value (phi : ℚ → ℚ) (r : RenamedRow) : PRow :=
  { toRenamedRow := r
    P_VALUE := Val.fin 1 - phiV phi r.Z_SCORE }

/-- A row after `ABDataProcessor.is_statistically_significant` added the
boolean `IS_STATISTICALLY_SIGNIFICANT` column. -/
structure SigRow extends PRow where
  IS_STATISTICALLY_SIGNIFICANT : Bool
deriving DecidableEq

/-- `ABDataProcessor.is_statistically_significant`:
`IS_STATISTICALLY_SIGNIFICANT = P_VALUE <= (1 - confidence_level)`,
with pandas comparison semantics (false on NaN). -/
def is_statistically_significant (confidence_level : ℚ := 9/10) (r : PRow) : SigRow :=
  { toPRow := r
    IS_STATISTICALLY_SIGNIFICANT := r.P_VALUE.leB (Val.fin (1 - confidence_level)) }

/-- A row after `ABDataProcessor.color_statistically_significant` added
the `COLOR` column. -/
structure ColorRow extends SigRow where
  COLOR : String
deriving DecidableEq

/-- `ABDataProcessor.color_utility_func`: gray `"#CFCFC4"` when the flag
is false, else green `"#77DD77"` when `Z_SCORE >= 0` (pandas comparison,
false on NaN), else red `"#FF6961"`. -/
def color_utility_func (r : SigRow) : String :=
  if r.IS_STATISTICALLY_SIGNIFICANT = false then "#CFCFC4"
  else if r.Z_SCORE.geB (Val.fin 0) then "#77DD77"
  else "#FF6961"

/-- `ABDataProcessor.color_statistically_significant`: applies
`color_utility_func` row-wise. -/
def color_statistically_significant (r : SigRow) : ColorRow :=
  { toSigRow := r
    COLOR := color_utility_func r }

/-- A row after `ABDataProcessor.calculate_uplift_confidence_interval`
added the confidence-interval columns. -/
structure CIRow extends ColorRow where
  CI_HALF_WIDTH : Val
  UPPER_CI : Val
  LOWER_CI : Val
  UPLIFT_UPPER_CI : Val
  UPLIFT_LOWER_CI : Val
deriving DecidableEq

/-- `ABDataProcessor.calculate_uplift_confidence_interval`:
`ci_constant = stats.norm.ppf(confidence_level)`,
`CI_HALF_WIDTH = sqrt(_POOLED_VARIANCE * (1/TREATMENT_USERS + 1/CONTROL_USERS))`,
`UPPER_CI/LOWER_CI = TREATMENT_MEAN - CONTROL_MEAN ± ci_constant * CI_HALF_WIDTH`,
`UPLIFT_UPPER_CI/UPLIFT_LOWER_CI = UPPER_CI/LOWER_CI / CONTROL_MEAN`;
`ppf` models `stats.norm.ppf`. -/
def calculate_uplift_confidence_interval (sqrtF ppf : ℚ → ℚ)
    (confidence_level : ℚ := 95/100) (r : ColorRow) : CIRow :=
  { toColorRow := r
    CI_HALF_WIDTH :=
      sqrtV sqrtF (r._POOLED_VARIANCE
        * (Val.fin 1 / r.TREATMENT_USERS + Val.fin 1 / r.CONTROL_USERS))
    UPPER_CI :=
      r.TREATMENT_MEAN - r.CONTROL_MEAN
        + Val.fin (ppf confidence_level)
          * sqrtV sqrtF (r._POOLED_VARIANCE
              * (Val.fin 1 / r.TREATMENT_USERS + Val.fin 1 / r.CONTROL_USERS))
    LOWER_CI :=
      r.TREATMENT_MEAN - r.CONTROL_MEAN
        - Val.fin (ppf confidence_level)
          * sqrtV sqrtF (r._POOLED_VARIANCE
              * (Val.fin 1 / r.TREATMENT_USERS + Val.fin 1 / r.CONTROL_USERS))
    UPLIFT_UPPER_CI :=
      (r.TREATMENT_MEAN - r.CONTROL_MEAN
        + Val.fin (ppf confidence_level)
          * sqrtV sqrtF (r._POOLED_VARIANCE
              * (Val.fin 1 / r.TREATMENT_USERS + Val.fin 1 / r.CONTROL_USERS)))
        / r.CONTROL_MEAN
    UPLIFT_LOWER_CI :=
      (r.TREATMENT_MEAN - r.CONTROL_MEAN
        - Val.fin (ppf confidence_level)
          * sqrtV sqrtF (r._POOLED_VARIANCE
              * (Val.fin 1 / r.TREATMENT_USERS + Val.fin 1 / r.CONTROL_USERS)))
        / r.CONTROL_MEAN }

/-- `ABDataProcessor.round_cols(["UPLIFT_LOWER_CI", "UPLIFT_UPPER_CI"], dp=4)`:
rounds exactly those two columns to 4 decimal places. -/
def round_cols (dp : ℕ := 4) (r : CIRow) : CIRow :=
  { r with
    UPLIFT_UPPER_CI := roundV dp r.UPLIFT_UPPER_CI
    UPLIFT_LOWER_CI := roundV dp r.UPLIFT_LOWER_CI }

/-- `ABDataProcessor.process_data` on one row: p-value, significance flag
at the default `confidence_level = 0.9`, color, uplift confidence
interval at the default `confidence_level = 0.95`, final rounding of the
two uplift-CI columns to 4 decimal places. -/
def process_data (phi sqrtF ppf : ℚ → ℚ) (r : RenamedRow) : CIRow :=
  round_cols 4
    (calculate_uplift_confidence_interval sqrtF ppf (95/100)
      (color_statistically_significant
        (is_statistically_significant (9/10)
          (calculate_p_value phi r))))

/-- The full per-row pipeline downstream of the baseline join:
`DFABTestProcessor.process_df` followed by `ABDataProcessor.process_data`. -/
def run_pipeline_row (phi sqrtF ppf : ℚ → ℚ) (j : JoinedRow) : CIRow :=
  process_data phi sqrtF ppf (process_df sqrtF j)

/-- One row of the wide summary table produced by
`ExperimentSummaryStats.transform_summary_statistics`: mean, variance and
count of one metric for one (variant, is-default) group. -/
structure KpiRow where
  VARIANT_NAME : String
  VARIANT_DEFAULT : ℚ
  KPI : String
  mean : Val
  var : Val
  count : Val
deriving DecidableEq

/-- `ExperimentSummaryStats.join_control_to_variant`: split the wide
summary into control (`VARIANT_DEFAULT == 1`) and treatment
(`VARIANT_DEFAULT == 0`) sets, then left-join each treatment row to the
control rows sharing its `KPI`.  `pd.merge(..., how="left")` emits, for
each left row in order, one output row per matching right row, or a
single row with NaN control statistics when there is no match. -/
def join_control_to_variant (tbl : List KpiRow) : List JoinedRow :=
  let control_df := tbl.filter (fun r => decide (r.VARIANT_DEFAULT = 1))
  let variant_df := tbl.filter (fun r => decide (r.VARIANT_DEFAULT = 0))
  variant_df.flatMap (fun v =>
    let ctrl_matches := control_df.filter (fun c => decide (c.KPI = v.KPI))
    if ctrl_matches.isEmpty then
      [{ VARIANT_NAME := v.VARIANT_NAME, VARIANT_DEFAULT := v.VARIANT_DEFAULT,
         KPI := v.KPI, mean_EXP := v.mean, var_EXP := v.var,
         count_EXP := v.count, mean_CONTROL := Val.nan,
         var_CONTROL := Val.nan, count_CONTROL := Val.nan }]
    else
      ctrl_matches.map (fun c =>
        { VARIANT_NAME := v.VARIANT_NAME, VARIANT_DEFAULT := v.VARIANT_DEFAULT,
          KPI := v.KPI, mean_EXP := v.mean, var_EXP := v.var,
          count_EXP := v.count, mean_CONTROL := c.mean,
          var_CONTROL := c.var, count_CONTROL := c.count }))

/-- One observation row of the aggregator input: variant labels plus the
metric columns.  `vals` gives the float cell of each metric column; it is
only ever read at the names listed in the table's `metricCols`. -/
structure ObsRow where
  VARIANT_NAME : String
  VARIANT_DEFAULT : ℚ
  vals : String → Val

/-- The aggregator input table.  `hasVariantName` / `hasVariantDefault`
record whether the two grouping columns are present and `metricCols`
lists the metric columns present; accessing an absent column raises
`KeyError` in pandas, which the embedding surfaces as `Except.error`. -/
structure ObsTable where
  hasVariantName : Bool
  hasVariantDefault : Bool
  metricCols : List String
  rows : List ObsRow

/-- The statistic kinds produced by `.agg(["mean", "var", "count"])`. -/
inductive Stat where
  | mean : Stat
  | var : Stat
  | count : Stat
deriving DecidableEq

/-- One row of the long summary table produced by
`ExperimentSummaryStats.get_summary_statistics` after
`.stack(future_stack=True).reset_index()`: a (variant, is-default,
statistic) triple with one column per metric. -/
structure SummaryRow where
  VARIANT_NAME : String
  VARIANT_DEFAULT : ℚ
  STATISTIC : Stat
  vals : String → Val

/-- Deduplicate a list keeping the first occurrence of each element —
the distinct group keys of a pandas `groupby` in order of appearance. -/
def firstDedup {α : Type} [DecidableEq α] : List α → List α
  | [] => []
  | a :: as => a :: (firstDedup as).filter (fun b => decide (b ≠ a))

/-- Rows of one `groupby(["VARIANT_NAME", "VARIANT_DEFAULT"])` group. -/
def groupRows (rows : List ObsRow) (k : String × ℚ) : List ObsRow :=
  rows.filter (fun r => decide (r.VARIANT_NAME = k.1 ∧ r.VARIANT_DEFAULT = k.2))

/-- The non-NaN cells of a column slice (pandas aggregations skip NaN). -/
def nonNanVals (vs : List Val) : List Val :=
  vs.filter (fun v => !v.isNan)

/-- Pandas `count`: the number of non-NaN cells. -/
def colCount (vs : List Val) : ℕ := (nonNanVals vs).length

/-- Sum of a list of cells under IEEE addition. -/
def valSum (vs : List Val) : Val := vs.foldr Val.add (Val.fin 0)

/-- Pandas `mean` with the default `skipna=True`: NaN when no non-NaN
cell exists, otherwise the sum of the non-NaN cells over their number. -/
def colMean (vs : List Val) : Val :=
  if colCount vs = 0 then Val.nan
  else valSum (nonNanVals vs) / Val.fin (colCount vs)

/-- Pandas `var` (unbiased, `ddof=1`, `skipna=True`): NaN when fewer
than two non-NaN cells exist. -/
def colVar (vs : List Val) : Val :=
  if colCount vs ≤ 1 then Val.nan
  else
    valSum ((nonNanVals vs).map
      (fun v => (v - colMean vs) * (v - colMean vs)))
      / Val.fin ((colCount vs : ℚ) - 1)

/-- The column slice of metric `m` over one group of `rows`. -/
def groupColumn (rows : List ObsRow) (k : String × ℚ) (m : String) : List Val :=
  (groupRows rows k).map (fun r => r.vals m)

/-- One stacked summary row: statistic `st` of every metric column for
the group with key `k`. -/
def statRow (rows : List ObsRow) (k : String × ℚ) (st : Stat) : SummaryRow :=
  { VARIANT_NAME := k.1
    VARIANT_DEFAULT := k.2
    STATISTIC := st
    vals := fun m =>
      match st with
      | .mean => colMean (groupColumn rows k m)
      | .var => colVar (groupColumn rows k m)
      | .count => Val.fin (colCount (groupColumn rows k m)) }

/-- `ExperimentSummaryStats.get_summary_statistics`:
`df.groupby(["VARIANT_NAME", "VARIANT_DEFAULT"])[experiment_metrics]
.agg(["mean", "var", "count"]).stack(future_stack=True).reset_index()`.
Accessing a missing grouping or metric column raises `KeyError` before
any aggregation happens (`Except.error` here); otherwise one row per
(group, statistic) in group order with statistics ordered
mean, var, count.  `future_stack=True` keeps all-NaN rows, so groups
with zero observations of a metric are emitted, not dropped. -/
def get_summary_statistics (t : ObsTable) (experiment_metrics : List String) :
    Except String (List SummaryRow) :=
  if t.hasVariantName = false then .error "KeyError: VARIANT_NAME"
  else if t.hasVariantDefault = false then .error "KeyError: VARIANT_DEFAULT"
  else
    match experiment_metrics.find? (fun m => !(decide (m ∈ t.metricCols))) with
    | some m => .error ("KeyError: " ++ m)
    | none =>
        .ok ((firstDedup (t.rows.map
                (fun r => (r.VARIANT_NAME, r.VARIANT_DEFAULT)))).flatMap
          (fun k => [statRow t.rows k .mean, statRow t.rows k .var,
                     statRow t.rows k .count]))

/-- Value of statistic `st` of metric `m` for group (`vn`, `vd`) in the
long summary, as read back by the pivot: the first summary row carrying
that (variant, is-default, statistic) index, NaN when none exists. -/
def lookupStat (srows : List SummaryRow) (vn : String) (vd : ℚ) (st : Stat)
    (m : String) : Val :=
  match srows.find? (fun s =>
      decide (s.VARIANT_NAME = vn ∧ s.VARIANT_DEFAULT = vd ∧ s.STATISTIC = st)) with
  | some s => s.vals m
  | none => Val.nan

/-- `ExperimentSummaryStats.transform_summary_statistics`: melt the long
summary over the metric columns, then pivot with index
(variant, is-default, KPI) and the statistics as columns — one `KpiRow`
per group key and metric. -/
def transform_summary_statistics (srows : List SummaryRow)
    (experiment_metrics : List String) : List KpiRow :=
  (firstDedup (srows.map (fun s => (s.VARIANT_NAME, s.VARIANT_DEFAULT)))).flatMap
    (fun k => experiment_metrics.map (fun m =>
      { VARIANT_NAME := k.1
        VARIANT_DEFAULT := k.2
        KPI := m
        mean := lookupStat srows k.1 k.2 .mean m
        var := lookupStat srows k.1 k.2 .var m
        count := lookupStat srows k.1 k.2 .count m }))

/-- `ExperimentSummaryStats.transform`: summary statistics, reshape,
then the baseline join.  A `KeyError` from the first step propagates and
no table is produced. -/
def ExperimentSummaryStats.transform (t : ObsTable)
    (experiment_metrics : List String) : Except String (List JoinedRow) :=
  (get_summary_statistics t experiment_metrics).map
    (fun srows =>
      join_control_to_variant
        (transform_summary_statistics srows experiment_metrics))

/-- Aggregator plus reshape, without the join: the wide per-(group,
metric) summary the joiner consumes. -/
def summary_pipeline (t : ObsTable) (experiment_metrics : List String) :
    Except String (List KpiRow) :=
  (get_summary_statistics t experiment_metrics).map
    (fun srows => transform_summary_statistics srows experiment_metrics)

/-- The table carried by an `Except`, empty on error (used only to state
concrete evaluations). -/
def okRows {α : Type} (e : Except String (List α)) : List α :=
  match e with
  | .ok l => l
  | .error _ => []

/-- A dataframe value as stored on the Python heap, at each of the shapes
the pipeline produces. -/
inductive Frame where
  | obsF : ObsTable → Frame
  | joinedF : List JoinedRow → Frame
  | metricsF : List MetricsRow → Frame
  | renamedF : List RenamedRow → Frame
  | pF : List PRow → Frame
  | sigF : List SigRow → Frame
  | colorF : List ColorRow → Frame
  | ciF : List CIRow → Frame

/-- The Python heap restricted to dataframes: references are natural
numbers, `next` is the next fresh reference. -/
structure HeapState where
  heap : ℕ → Frame
  next : ℕ

/-- Write `f` at reference `i`. -/
def heapWrite (h : ℕ → Frame) (i : ℕ) (f : Frame) : ℕ → Frame :=
  fun j => if j = i then f else h j

/-- The shared constructor shape of all three processor classes
(`ABDataProcessor.__init__`, `ExperimentSummaryStats.__init__`,
`DFABTestProcessor.__init__`): `self.df = df.copy()` allocates a fresh
reference holding a copy of the caller's dataframe; returns the new
state and the `self.df` reference. -/
def initProcessor (s : HeapState) (dfRef : ℕ) : HeapState × ℕ :=
  (⟨heapWrite s.heap s.next (s.heap dfRef), s.next + 1⟩, s.next)

/-- In-place effect of `ABDataProcessor.calculate_p_value` on a frame. -/
def stepPValue (phi : ℚ → ℚ) : Frame → Frame
  | .renamedF rs => .pF (rs.map (calculate_p_value phi))
  | f => f

/-- In-place effect of `ABDataProcessor.is_statistically_significant`. -/
def stepSig (cl : ℚ) : Frame → Frame
  | .pF rs => .sigF (rs.map (is_statistically_significant cl))
  | f => f

/-- In-place effect of `ABDataProcessor.color_statistically_significant`. -/
def stepColor : Frame → Frame
  | .sigF rs => .colorF (rs.map color_statistically_significant)
  | f => f

/-- In-place effect of `ABDataProcessor.calculate_uplift_confidence_interval`. -/
def stepCI (sqrtF ppf : ℚ → ℚ) (cl : ℚ) : Frame → Frame
  | .colorF rs => .ciF (rs.map (calculate_uplift_confidence_interval sqrtF ppf cl))
  | f => f

/-- In-place effect of `ABDataProcessor.round_cols`. -/
def stepRound (dp : ℕ) : Frame → Frame
  | .ciF rs => .ciF (rs.map (round_cols dp))
  | f => f

/-- In-place effect of `DFABTestProcessor.get_metrics(self.df)`, which
assigns new columns on the frame passed to it. -/
def stepGetMetrics (sqrtF : ℚ → ℚ) : Frame → Frame
  | .joinedF rs => .metricsF (rs.map (get_metrics sqrtF))
  | f => f

/-- `DFABTestProcessor.rename_df_cols` returns a new frame (the rename is
not in place). -/
def stepRename : Frame → Frame
  | .metricsF rs => .renamedF (rs.map rename_df_cols)
  | f => f

/-- `ABDataProcessor(df).process_data()` as a heap computation: the
constructor copies the caller's frame `dfRef` to the fresh `self.df`
reference, then the five methods mutate `self.df` in place in order;
the final `self.df` frame is also the returned value. -/
def ABDataProcessor.run_process_data (phi sqrtF ppf : ℚ → ℚ)
    (s : HeapState) (dfRef : ℕ) : HeapState × Frame :=
  let selfRef := (initProcessor s dfRef).2
  let s1 := (initProcessor s dfRef).1
  let h1 := heapWrite s1.heap selfRef (stepPValue phi (s1.heap selfRef))
  let h2 := heapWrite h1 selfRef (stepSig (9/10) (h1 selfRef))
  let h3 := heapWrite h2 selfRef (stepColor (h2 selfRef))
  let h4 := heapWrite h3 selfRef (stepCI sqrtF ppf (95/100) (h3 selfRef))
  let h5 := heapWrite h4 selfRef (stepRound 4 (h4 selfRef))
  (⟨h5, s1.next⟩, h5 selfRef)

/-- `ExperimentSummaryStats(df, metrics).transform()` as a heap
computation: the constructor copies the caller's frame; `transform`
builds new frames only, never mutating `self.df`. -/
def ExperimentSummaryStats.run_transform (experiment_metrics : List String)
    (s : HeapState) (dfRef : ℕ) : HeapState × Except String (List JoinedRow) :=
  let selfRef := (initProcessor s dfRef).2
  let s1 := (initProcessor s dfRef).1
  (s1,
   match s1.heap selfRef with
   | .obsF t => ExperimentSummaryStats.transform t experiment_metrics
   | _ => .error "self.df is not an observation table")

/-- `DFABTestProcessor(df).process_df()` as a heap computation: the
constructor copies the caller's frame; `get_metrics(self.df)` mutates
the copy in place; `rename_df_cols` returns a fresh frame which is the
result value and is not written back. -/
def DFABTestProcessor.run_process_df (sqrtF : ℚ → ℚ)
    (s : HeapState) (dfRef : ℕ) : HeapState × Frame :=
  let selfRef := (initProcessor s dfRef).2
  let s1 := (initProcessor s dfRef).1
  let h1 := heapWrite s1.heap selfRef (stepGetMetrics sqrtF (s1.heap selfRef))
  (⟨h1, s1.next⟩, stepRename (h1 selfRef))

theorem Val.add_def (a b : Val) : a + b = Val.add a b := rfl

theorem Val.sub_def (a b : Val) : a - b = Val.sub a b := rfl

theorem Val.mul_def (a b : Val) : a * b = Val.mul a b := rfl

theorem Val.div_def (a b : Val) : a / b = Val.div a b := rfl

theorem Val.nan_add (x : Val) : Val.nan + x = Val.nan := by cases x <;> rfl

theorem Val.add_nan (x : Val) : x + Val.nan = Val.nan := by cases x <;> rfl

theorem Val.nan_sub (x : Val) : Val.nan - x = Val.nan := by cases x <;> rfl

theorem Val.sub_nan (x : Val) : x - Val.nan = Val.nan := by cases x <;> rfl

theorem Val.nan_mul (x : Val) : Val.nan * x = Val.nan := by cases x <;> rfl

theorem Val.mul_nan (x : Val) : x * Val.nan = Val.nan := by cases x <;> rfl

theorem Val.nan_div (x : Val) : Val.nan / x = Val.nan := by cases x <;> rfl

theorem Val.div_nan (x : Val) : x / Val.nan = Val.nan := by cases x <;> rfl

theorem Val.fin_add_fin (a b : ℚ) : Val.fin a + Val.fin b = Val.fin (a + b) := rfl

theorem Val.fin_sub_fin (a b : ℚ) :
    Val.fin a - Val.fin b = Val.fin (a - b) := by
  show Val.sub _ _ = _
  simp [Val.sub, Val.add, Val.neg, sub_eq_add_neg]

theorem Val.fin_mul_fin (a b : ℚ) : Val.fin a * Val.fin b = Val.fin (a * b) := rfl

theorem Val.fin_div_fin {b : ℚ} (a : ℚ) (h : b ≠ 0) :
    Val.fin a / Val.fin b = Val.fin (a / b) := by
  show Val.div _ _ = _
  simp [Val.div, h]

theorem Val.fin_div_zero (a : ℚ) :
    Val.fin a / Val.fin 0 =
      (if 0 < a then Val.pinf else if a < 0 then Val.ninf else Val.nan) := by
  show Val.div _ _ = _
  simp [Val.div]

theorem Val.leB_nan_left (x : Val) : Val.leB Val.nan x = false := by cases x <;> rfl

theorem Val.leB_nan_right (x : Val) : Val.leB x Val.nan = false := by cases x <;> rfl

theorem Val.leB_fin_fin (a b : ℚ) : Val.leB (Val.fin a) (Val.fin b) = decide (a ≤ b) := rfl

theorem Val.geB_fin_fin (a b : ℚ) : Val.geB (Val.fin a) (Val.fin b) = decide (b ≤ a) := rfl

theorem Val.ltB_fin_fin (a b : ℚ) : Val.ltB (Val.fin a) (Val.fin b) = decide (a < b) := rfl

theorem sqrtV_nan (f : ℚ → ℚ) : sqrtV f Val.nan = Val.nan := rfl

theorem sqrtV_fin (f : ℚ → ℚ) (q : ℚ) :
    sqrtV f (Val.fin q) = if q < 0 then Val.nan else Val.fin (f q) := rfl

theorem phiV_nan (phi : ℚ → ℚ) : phiV phi Val.nan = Val.nan := rfl

theorem phiV_fin (phi : ℚ → ℚ) (q : ℚ) : phiV phi (Val.fin q) = Val.fin (phi q) := rfl

/-- C2.  The significance flag as computed by
`ABDataProcessor.is_statistically_significant` on the pipeline's p-value
column is true exactly when `P_VALUE ≤ 1 − confidence_level`, for every
confidence level in (0,1); the comparison is `≤`, so boundary equality
`P_VALUE = 1 − confidence_level` counts as significant (default
confidence level 0.9 gives threshold 0.1).  A NaN p-value (NaN z-score)
is never significant, matching the pandas convention that a comparison
with NaN is false. -/
theorem C2_flag_iff_threshold (phi : ℚ → ℚ) (cl : ℚ) (hcl0 : 0 < cl)
    (hcl1 : cl < 1) (r : RenamedRow) :
    (is_statistically_significant cl
        (calculate_p_value phi r)).IS_STATISTICALLY_SIGNIFICANT = true ↔
      ∃ p : ℚ, (calculate_p_value phi r).P_VALUE = Val.fin p ∧ p ≤ 1 - cl := by
  cases hz : r.Z_SCORE <;>
    simp [is_statistically_significant, calculate_p_value, hz, phiV,
      Val.sub_def, Val.sub, Val.add, Val.neg, Val.leB]

/-- On pipeline rows the significance flag is false whenever the z-score
is NaN: the p-value is then NaN and a comparison with NaN is false. -/
theorem pipeline_flag_of_nan (phi : ℚ → ℚ) (cl : ℚ) (r : RenamedRow)
    (h : r.Z_SCORE = Val.nan) :
    (is_statistically_significant cl
      (calculate_p_value phi r)).IS_STATISTICALLY_SIGNIFICANT = false := by
  show ((calculate_p_value phi r).P_VALUE).leB (Val.fin (1 - cl)) = false
  rw [show (calculate_p_value phi r).P_VALUE
        = Val.fin 1 - phiV phi r.Z_SCORE from rfl,
    h, phiV_nan, Val.sub_nan, Val.leB_nan_left]

/-- For non-NaN values, failing the `>= 0` test is the same as `< 0`. -/
theorem ltB_zero_eq_not_geB {v : Val} (h : v ≠ Val.nan) :
    v.ltB (Val.fin 0) = !(v.geB (Val.fin 0)) := by
  cases v with
  | nan => exact absurd rfl h
  | pinf => rfl
  | ninf => rfl
  | fin q =>
      show decide (q < 0) = !decide (0 ≤ q)
      by_cases h1 : q < 0
      · have h2 : ¬ (0 ≤ q) := not_le.mpr h1
        simp [h1, h2]
      · have h2 : 0 ≤ q := not_lt.mp h1
        simp [h1, h2]

/-- C3.  The color classification of
`ABDataProcessor.color_utility_func`, applied to pipeline rows (p-value
derived from the z-score, flag derived from the p-value): gray whenever
the significance flag is false, regardless of the z-score's sign; green
exactly when significant with `Z_SCORE ≥ 0`; red exactly when
significant with `Z_SCORE < 0` — significance is checked first. -/
theorem C3_color_classification (phi : ℚ → ℚ) (cl : ℚ) (r : RenamedRow) :
    ((color_statistically_significant (is_statistically_significant cl
        (calculate_p_value phi r))).COLOR = "#CFCFC4" ↔
      (color_statistically_significant (is_statistically_significant cl
        (calculate_p_value phi r))).IS_STATISTICALLY_SIGNIFICANT = false) ∧
    ((color_statistically_significant (is_statistically_significant cl
        (calculate_p_value phi r))).COLOR = "#77DD77" ↔
      (color_statistically_significant (is_statistically_significant cl
        (calculate_p_value phi r))).IS_STATISTICALLY_SIGNIFICANT = true ∧
      (color_statistically_significant (is_statistically_significant cl
        (calculate_p_value phi r))).Z_SCORE.geB (Val.fin 0) = true) ∧
    ((color_statistically_significant (is_statistically_significant cl
        (calculate_p_value phi r))).COLOR = "#FF6961" ↔
      (color_statistically_significant (is_statistically_significant cl
        (calculate_p_value phi r))).IS_STATISTICALLY_SIGNIFICANT = true ∧
      (color_statistically_significant (is_statistically_significant cl
        (calculate_p_value phi r))).Z_SCORE.ltB (Val.fin 0) = true) := by
  have hgray_green : ("#CFCFC4" : String) ≠ "#77DD77" := by decide
  have hgray_red : ("#CFCFC4" : String) ≠ "#FF6961" := by decide
  have hgreen_red : ("#77DD77" : String) ≠ "#FF6961" := by decide
  cases hflag : (is_statistically_significant cl
      (calculate_p_value phi r)).IS_STATISTICALLY_SIGNIFICANT with
  | false =>
      simp [color_statistically_significant, color_utility_func, hflag,
        hgray_green, hgray_red, hgreen_red, hgray_green.symm,
        hgray_red.symm, hgreen_red.symm]
  | true =>
      have hzn : r.Z_SCORE ≠ Val.nan := by
        intro h
        rw [pipeline_flag_of_nan phi cl r h] at hflag
        cases hflag
      have hZeq : (is_statistically_significant cl
          (calculate_p_value phi r)).Z_SCORE = r.Z_SCORE := rfl
      have hlt := ltB_zero_eq_not_geB hzn
      cases hge : r.Z_SCORE.geB (Val.fin 0) with
      | true =>
          simp [color_statistically_significant, color_utility_func, hflag,
            hZeq, hge, hlt, hgray_green, hgray_red, hgreen_red,
            hgray_green.symm, hgray_red.symm, hgreen_red.symm]
      | false =>
          simp [color_statistically_significant, color_utility_func, hflag,
            hZeq, hge, hlt, hgray_green, hgray_red, hgreen_red,
            hgray_green.symm, hgray_red.symm, hgreen_red.symm]

/-- The joined row of the specification's concrete scenario: control
mean 10, variance 4, count 100; treatment mean 11, variance 5,
count 100. -/
def exampleInputRow : JoinedRow :=
  { VARIANT_NAME := "treatment"
    VARIANT_DEFAULT := 0
    KPI := "metric"
    mean_EXP := Val.fin 11
    var_EXP := Val.fin 5
    count_EXP := Val.fin 100
    mean_CONTROL := Val.fin 10
    var_CONTROL := Val.fin 4
    count_CONTROL := Val.fin 100 }

/-- Rational stand-in for `scipy.stats.norm.cdf`, needed only at
`10/3 ≈ 3.333`, where the true value is `0.9995709...`. -/
def phi0 : ℚ → ℚ := fun _ => 99957/100000

/-- Rational stand-in for `np.sqrt`, agreeing with it on the arguments
the verified runs exercise (`sqrt (9/100) = 3/10`, `sqrt 0 = 0`) and
nonnegative everywhere, like the true square root on nonnegatives. -/
def sqrt0 : ℚ → ℚ := fun q => if q = 9/100 then 3/10 else 0

/-- Rational stand-in for `scipy.stats.norm.ppf`, needed only at `0.95`,
where the true value is `1.6448536...`. -/
def ppf0 : ℚ → ℚ := fun _ => 16449/10000
theorem process_df_exampleInputRow (sqrtF : ℚ → ℚ)
    (hsqrt : sqrtF (9/100) = 3/10) :
    process_df sqrtF exampleInputRow =
      { VARIANT_NAME := "treatment"
        VARIANT_DEFAULT := 0
        KPI := "metric"
        TREATMENT_MEAN := Val.fin 11
        TREATMENT_VARIANCE := Val.fin 5
        TREATMENT_USERS := Val.fin 100
        CONTROL_MEAN := Val.fin 10
        CONTROL_VARIANCE := Val.fin 4
        CONTROL_USERS := Val.fin 100
        POOLED_VARIANCE := Val.fin (9/100)
        _POOLED_VARIANCE := Val.fin (9/2)
        Z_SCORE := Val.fin (10/3)
        TREATMENT_UPLIFT := Val.fin (1/10) } := by
  have hpv : Val.fin 4 / Val.fin 100 + Val.fin 5 / Val.fin 100
      = Val.fin (9/100) := by
    rw [Val.fin_div_fin 4 (by norm_num), Val.fin_div_fin 5 (by norm_num),
      Val.fin_add_fin]
    norm_num
  have hsqv : sqrtV sqrtF (Val.fin (9/100)) = Val.fin (3/10) := by
    rw [sqrtV_fin, if_neg (by norm_num), hsqrt]
  unfold process_df rename_df_cols get_metrics exampleInputRow
  simp only [hpv, hsqv, Val.fin_sub_fin, Val.fin_mul_fin, Val.fin_add_fin,
    RenamedRow.mk.injEq, eq_self_iff_true, true_and, and_true]
  refine ⟨?_, ?_, ?_⟩
  · rw [show ((4:ℚ) * (100 - 1) + 5 * (100 - 1)) = 891 by norm_num,
      show ((100:ℚ) + 100 - 2) = 198 by norm_num,
      Val.fin_div_fin 891 (by norm_num)]
    norm_num
  · rw [show ((11:ℚ) - 10) = 1 by norm_num,
      Val.fin_div_fin 1 (by norm_num)]
    norm_num
  · rw [show ((11:ℚ) - 10) = 1 by norm_num,
      Val.fin_div_fin 1 (by norm_num)]

/-- C1.  Running the full significance pipeline
(`DFABTestProcessor.process_df` then `ABDataProcessor.process_data`, so
with the default test confidence level 0.90) on the joined row with
control mean 10, variance 4, count 100 and treatment mean 11, variance
5, count 100 yields `POOLED_VARIANCE = 0.09`, `Z_SCORE = 10/3 ≈ 3.33`,
`P_VALUE ≈ 0.00043`, `IS_STATISTICALLY_SIGNIFICANT = true`,
`TREATMENT_UPLIFT = 0.10` and the green color token.  The hypotheses pin
the external library functions at the two points used:
`np.sqrt(0.09) = 0.3` and `norm.cdf(10/3) = 0.99957 ± 0.00001`. -/
theorem C1_concrete_run (phi sqrtF ppf : ℚ → ℚ)
    (hsqrt : sqrtF (9/100) = 3/10)
    (hphi : |phi (10/3) - 99957/100000| ≤ 1/100000) :
    (run_pipeline_row phi sqrtF ppf exampleInputRow).POOLED_VARIANCE
        = Val.fin (9/100) ∧
    ((run_pipeline_row phi sqrtF ppf exampleInputRow).Z_SCORE
        = Val.fin (10/3) ∧ |(10:ℚ)/3 - 333/100| ≤ 1/100) ∧
    (∃ p : ℚ, (run_pipeline_row phi sqrtF ppf exampleInputRow).P_VALUE
        = Val.fin p ∧ |p - 43/100000| ≤ 1/100000) ∧
    (run_pipeline_row phi sqrtF ppf
        exampleInputRow).IS_STATISTICALLY_SIGNIFICANT = true ∧
    (run_pipeline_row phi sqrtF ppf exampleInputRow).TREATMENT_UPLIFT
        = Val.fin (1/10) ∧
    (run_pipeline_row phi sqrtF ppf exampleInputRow).COLOR = "#77DD77" := by
  have habs := abs_le.mp hphi
  have hren := process_df_exampleInputRow sqrtF hsqrt
  have hZs : (process_df sqrtF exampleInputRow).Z_SCORE = Val.fin (10/3) := by
    rw [hren]
  have hP2 : (calculate_p_value phi
      (process_df sqrtF exampleInputRow)).P_VALUE
      = Val.fin (1 - phi (10/3)) := by
    show Val.fin 1 - phiV phi (process_df sqrtF exampleInputRow).Z_SCORE = _
    rw [hZs, phiV_fin, Val.fin_sub_fin]
  have hflag2 : (is_statistically_significant (9/10)
      (calculate_p_value phi
        (process_df sqrtF exampleInputRow))).IS_STATISTICALLY_SIGNIFICANT
      = true := by
    show ((calculate_p_value phi
        (process_df sqrtF exampleInputRow)).P_VALUE).leB
        (Val.fin (1 - 9/10)) = true
    rw [hP2, Val.leB_fin_fin, decide_eq_true_iff]
    linarith [habs.1]
  refine ⟨?_, ⟨?_, by rw [abs_le]; constructor <;> norm_num⟩,
    ⟨1 - phi (10/3), hP2, ?_⟩, hflag2, ?_, ?_⟩
  · show (process_df sqrtF exampleInputRow).POOLED_VARIANCE = _
    rw [hren]
  · exact hZs
  · have heq : 1 - phi (10/3) - 43/100000
        = -(phi (10/3) - 99957/100000) := by ring
    rw [heq, abs_neg]
    exact hphi
  · show (process_df sqrtF exampleInputRow).TREATMENT_UPLIFT = _
    rw [hren]
  · show color_utility_func (is_statistically_significant (9/10)
        (calculate_p_value phi (process_df sqrtF exampleInputRow)))
        = "#77DD77"
    unfold color_utility_func
    rw [hflag2]
    rw [show (is_statistically_significant (9/10)
          (calculate_p_value phi
            (process_df sqrtF exampleInputRow))).Z_SCORE
        = (process_df sqrtF exampleInputRow).Z_SCORE from rfl, hZs]
    rw [show Val.geB (Val.fin (10/3)) (Val.fin 0) = true from
      decide_eq_true_iff.mpr (by norm_num)]
    simp

/-- Witness for C1 at the concrete stand-ins `phi0`, `sqrt0`, `ppf0`. -/
theorem C1_concrete_run_witness :
    sqrt0 (9/100) = 3/10 ∧ |phi0 (10/3) - 99957/100000| ≤ 1/100000 ∧
    (run_pipeline_row phi0 sqrt0 ppf0
      exampleInputRow).IS_STATISTICALLY_SIGNIFICANT = true := by
  have h1 : sqrt0 (9/100) = 3/10 := by simp [sqrt0]
  have h2 : |phi0 (10/3) - 99957/100000| ≤ 1/100000 := by
    norm_num [phi0]
  exact ⟨h1, h2, (C1_concrete_run phi0 sqrt0 ppf0 h1 h2).2.2.2.1⟩

/-- Witness for C2 at the default confidence level 0.9 and a concrete
pipeline row. -/
theorem C2_flag_iff_threshold_witness :
    (0:ℚ) < 9/10 ∧ (9:ℚ)/10 < 1 ∧
    ((is_statistically_significant (9/10)
        (calculate_p_value phi0 (process_df sqrt0
          exampleInputRow))).IS_STATISTICALLY_SIGNIFICANT = true ↔
      ∃ p : ℚ, (calculate_p_value phi0
          (process_df sqrt0 exampleInputRow)).P_VALUE = Val.fin p ∧
        p ≤ 1 - 9/10) :=
  ⟨by norm_num, by norm_num,
   C2_flag_iff_threshold phi0 (9/10) (by norm_num) (by norm_num) _⟩

/-- Division by exact (positive) zero never yields a finite value:
it is `+inf`, `-inf` or NaN depending on the numerator. -/
theorem div_fin_zero_not_finite (x : Val) :
    (x / Val.fin 0).isFinite = false := by
  cases x <;>
    simp only [Val.div_def, Val.div, Val.isFinite] <;>
    split_ifs <;>
    simp [Val.isFinite]

/-- A joined row whose two variances are exactly zero: the Welch pooled
variance is exactly zero and the z-score divides by zero. -/
def zeroVarianceRow : JoinedRow :=
  { VARIANT_NAME := "treatment"
    VARIANT_DEFAULT := 0
    KPI := "metric"
    mean_EXP := Val.fin 11
    var_EXP := Val.fin 0
    count_EXP := Val.fin 100
    mean_CONTROL := Val.fin 10
    var_CONTROL := Val.fin 0
    count_CONTROL := Val.fin 100 }

/-- Counterexample to C4 as stated: on a row with both variances zero
(counts 100, means 10 and 11), `POOLED_VARIANCE` is exactly zero and
`DFABTestProcessor.get_metrics` computes `Z_SCORE = +inf` — numpy turns
`1 / 0.0` into positive infinity, not into null/NaN. -/
theorem C4_degeneracy_counterexample :
    (get_metrics sqrt0 zeroVarianceRow).POOLED_VARIANCE = Val.fin 0 ∧
    (get_metrics sqrt0 zeroVarianceRow).Z_SCORE = Val.pinf ∧
    (get_metrics sqrt0 zeroVarianceRow).Z_SCORE ≠ Val.nan := by
  have hpv : Val.fin 0 / Val.fin 100 + Val.fin 0 / Val.fin 100
      = Val.fin 0 := by
    rw [Val.fin_div_fin 0 (show (100:ℚ) ≠ 0 by norm_num), Val.fin_add_fin]
    norm_num
  have hsq : sqrtV sqrt0 (Val.fin 0) = Val.fin 0 := by
    rw [sqrtV_fin, if_neg (by norm_num)]
    norm_num [sqrt0]
  have hz : (get_metrics sqrt0 zeroVarianceRow).Z_SCORE = Val.pinf := by
    show (Val.fin 11 - Val.fin 10)
        / sqrtV sqrt0 (Val.fin 0 / Val.fin 100 + Val.fin 0 / Val.fin 100)
        = Val.pinf
    rw [hpv, hsq, Val.fin_sub_fin, show ((11:ℚ) - 10) = 1 by norm_num,
      Val.fin_div_zero, if_pos (by norm_num)]
  refine ⟨?_, hz, ?_⟩
  · show Val.fin 0 / Val.fin 100 + Val.fin 0 / Val.fin 100 = Val.fin 0
    exact hpv
  · rw [hz]
    simp

/-- C4 (amended).  On a degenerate row `DFABTestProcessor.get_metrics`
never raises: every derived field is still produced, and the affected
field carries a non-finite value (NaN, or ±infinity when an exact zero
divides a nonzero quantity).  Specifically: a zero `POOLED_VARIANCE`
makes `Z_SCORE` non-finite; a NaN treatment variance (what the
aggregator produces for `count_EXP = 1`) makes `POOLED_VARIANCE`,
`_POOLED_VARIANCE` and `Z_SCORE` NaN; a zero control mean makes
`TREATMENT_UPLIFT` non-finite.  Each field depends only on its own row's
inputs (`TREATMENT_UPLIFT` only on the means; the table operation is a
per-row map, so other rows are unaffected). -/
theorem C4_degeneracy_nonfinite (sqrtF : ℚ → ℚ) (h0 : sqrtF 0 = 0)
    (r : JoinedRow) :
    ((get_metrics sqrtF r).POOLED_VARIANCE = Val.fin 0 →
      (get_metrics sqrtF r).Z_SCORE.isFinite = false) ∧
    (r.var_EXP = Val.nan →
      (get_metrics sqrtF r).POOLED_VARIANCE = Val.nan ∧
      (get_metrics sqrtF r).Z_SCORE = Val.nan ∧
      (get_metrics sqrtF r)._POOLED_VARIANCE = Val.nan) ∧
    (r.mean_CONTROL = Val.fin 0 →
      (get_metrics sqrtF r).TREATMENT_UPLIFT.isFinite = false) ∧
    ((get_metrics sqrtF r).TREATMENT_UPLIFT
      = (r.mean_EXP - r.mean_CONTROL) / r.mean_CONTROL) ∧
    (∀ rows : List JoinedRow, ∀ i : ℕ, ∀ h1 : i < (rows.map (get_metrics sqrtF)).length,
      ∀ h2 : i < rows.length,
      (rows.map (get_metrics sqrtF)).get ⟨i, h1⟩
        = get_metrics sqrtF (rows.get ⟨i, h2⟩)) := by
  refine ⟨?_, ?_, ?_, rfl, ?_⟩
  · intro hpv
    have hze : (get_metrics sqrtF r).Z_SCORE
        = (r.mean_EXP - r.mean_CONTROL)
          / sqrtV sqrtF ((get_metrics sqrtF r).POOLED_VARIANCE) := rfl
    rw [hze, hpv, sqrtV_fin, if_neg (by norm_num), h0]
    exact div_fin_zero_not_finite _
  · intro hv
    have hPVe : (get_metrics sqrtF r).POOLED_VARIANCE
        = r.var_CONTROL / r.count_CONTROL + r.var_EXP / r.count_EXP := rfl
    have hpv : (get_metrics sqrtF r).POOLED_VARIANCE = Val.nan := by
      rw [hPVe, hv, Val.nan_div, Val.add_nan]
    refine ⟨hpv, ?_, ?_⟩
    · have hze : (get_metrics sqrtF r).Z_SCORE
          = (r.mean_EXP - r.mean_CONTROL)
            / sqrtV sqrtF ((get_metrics sqrtF r).POOLED_VARIANCE) := rfl
      rw [hze, hpv, sqrtV_nan, Val.div_nan]
    · have hp2 : (get_metrics sqrtF r)._POOLED_VARIANCE
          = (r.var_CONTROL * (r.count_CONTROL - Val.fin 1)
              + r.var_EXP * (r.count_EXP - Val.fin 1))
            / (r.count_CONTROL + r.count_EXP - Val.fin 2) := rfl
      rw [hp2, hv, Val.nan_mul, Val.add_nan, Val.nan_div]
  · intro hc
    have hue : (get_metrics sqrtF r).TREATMENT_UPLIFT
        = (r.mean_EXP - r.mean_CONTROL) / r.mean_CONTROL := rfl
    rw [hue, hc]
    exact div_fin_zero_not_finite _
  · intro rows i h1 h2
    simp

/-- A joined row with NaN treatment variance (count 1 upstream) and a
zero control mean. -/
def degenerateRow : JoinedRow :=
  { VARIANT_NAME := "treatment"
    VARIANT_DEFAULT := 0
    KPI := "metric"
    mean_EXP := Val.fin 11
    var_EXP := Val.nan
    count_EXP := Val.fin 1
    mean_CONTROL := Val.fin 0
    var_CONTROL := Val.fin 4
    count_CONTROL := Val.fin 100 }

/-- Witness for the amended C4 on a concrete degenerate row. -/
theorem C4_degeneracy_nonfinite_witness :
    sqrt0 0 = 0 ∧
    (get_metrics sqrt0 degenerateRow).POOLED_VARIANCE = Val.nan ∧
    (get_metrics sqrt0 degenerateRow).Z_SCORE = Val.nan ∧
    (get_metrics sqrt0 degenerateRow).TREATMENT_UPLIFT.isFinite = false := by
  have h0 : sqrt0 0 = 0 := by norm_num [sqrt0]
  have hv : degenerateRow.var_EXP = Val.nan := rfl
  have hc : degenerateRow.mean_CONTROL = Val.fin 0 := rfl
  exact ⟨h0,
    ((C4_degeneracy_nonfinite sqrt0 h0 degenerateRow).2.1 hv).1,
    ((C4_degeneracy_nonfinite sqrt0 h0 degenerateRow).2.1 hv).2.1,
    (C4_degeneracy_nonfinite sqrt0 h0 degenerateRow).2.2.1 hc⟩

/-- A first control row for the duplicate-control scenario. -/
def dupControlA : KpiRow :=
  { VARIANT_NAME := "control_A", VARIANT_DEFAULT := 1, KPI := "m",
    mean := Val.fin 1, var := Val.fin 1, count := Val.fin 10 }

/-- A second control row for the same metric — the upstream data
integrity violation of the ambiguous-control scenario. -/
def dupControlB : KpiRow :=
  { VARIANT_NAME := "control_B", VARIANT_DEFAULT := 1, KPI := "m",
    mean := Val.fin 2, var := Val.fin 1, count := Val.fin 10 }

/-- The single treatment row of the duplicate-control scenario. -/
def dupTreatRow : KpiRow :=
  { VARIANT_NAME := "treatment", VARIANT_DEFAULT := 0, KPI := "m",
    mean := Val.fin 3, var := Val.fin 1, count := Val.fin 10 }

/-- C6 evaluated at the failing input: with two control rows for metric
`"m"` and one treatment row, `join_control_to_variant` silently emits
two output rows — one per matching control row — exceeding the single
treatment row; there is no error and no tie-break. -/
theorem C6_fanout_eval :
    (join_control_to_variant [dupControlA, dupControlB, dupTreatRow]).length
      = 2 ∧
    ([dupControlA, dupControlB, dupTreatRow].filter
      (fun r => decide (r.VARIANT_DEFAULT = 0))).length = 1 := by
  constructor
  · rfl
  · rfl

theorem roundV_nan (dp : ℕ) : roundV dp Val.nan = Val.nan := rfl

/-- Null propagation: when a joined row carries NaN control statistics,
every derived field of the downstream pipeline is NaN (not zero), the
significance flag is false and the color is the neutral gray; nothing
raises, every field is produced. -/
theorem pipeline_nan_controls (phi sqrtF ppf : ℚ → ℚ) (j : JoinedRow)
    (hm : j.mean_CONTROL = Val.nan) (hv : j.var_CONTROL = Val.nan) :
    (run_pipeline_row phi sqrtF ppf j).POOLED_VARIANCE = Val.nan ∧
    (run_pipeline_row phi sqrtF ppf j)._POOLED_VARIANCE = Val.nan ∧
    (run_pipeline_row phi sqrtF ppf j).Z_SCORE = Val.nan ∧
    (run_pipeline_row phi sqrtF ppf j).TREATMENT_UPLIFT = Val.nan ∧
    (run_pipeline_row phi sqrtF ppf j).P_VALUE = Val.nan ∧
    (run_pipeline_row phi sqrtF ppf j).UPLIFT_UPPER_CI = Val.nan ∧
    (run_pipeline_row phi sqrtF ppf j).UPLIFT_LOWER_CI = Val.nan ∧
    (run_pipeline_row phi sqrtF ppf j).IS_STATISTICALLY_SIGNIFICANT = false ∧
    (run_pipeline_row phi sqrtF ppf j).COLOR = "#CFCFC4" := by
  have hPV : (process_df sqrtF j).POOLED_VARIANCE = Val.nan := by
    show j.var_CONTROL / j.count_CONTROL + j.var_EXP / j.count_EXP = Val.nan
    rw [hv, Val.nan_div, Val.nan_add]
  have hP2 : (process_df sqrtF j)._POOLED_VARIANCE = Val.nan := by
    show (j.var_CONTROL * (j.count_CONTROL - Val.fin 1)
        + j.var_EXP * (j.count_EXP - Val.fin 1))
        / (j.count_CONTROL + j.count_EXP - Val.fin 2) = Val.nan
    rw [hv, Val.nan_mul, Val.nan_add, Val.nan_div]
  have hZ : (process_df sqrtF j).Z_SCORE = Val.nan := by
    show (j.mean_EXP - j.mean_CONTROL)
        / sqrtV sqrtF (j.var_CONTROL / j.count_CONTROL
          + j.var_EXP / j.count_EXP) = Val.nan
    rw [hm, Val.sub_nan, Val.nan_div]
  have hU : (process_df sqrtF j).TREATMENT_UPLIFT = Val.nan := by
    show (j.mean_EXP - j.mean_CONTROL) / j.mean_CONTROL = Val.nan
    rw [hm, Val.sub_nan, Val.nan_div]
  have hPval : (calculate_p_value phi (process_df sqrtF j)).P_VALUE
      = Val.nan := by
    show Val.fin 1 - phiV phi (process_df sqrtF j).Z_SCORE = Val.nan
    rw [hZ, phiV_nan, Val.sub_nan]
  have hFlag : (is_statistically_significant (9/10) (calculate_p_value phi
      (process_df sqrtF j))).IS_STATISTICALLY_SIGNIFICANT = false := by
    show ((calculate_p_value phi
        (process_df sqrtF j)).P_VALUE).leB (Val.fin (1 - 9/10)) = false
    rw [hPval, Val.leB_nan_left]
  have hColor : color_utility_func (is_statistically_significant (9/10)
      (calculate_p_value phi (process_df sqrtF j))) = "#CFCFC4" := by
    unfold color_utility_func
    rw [hFlag]
    simp
  have hCMr : (process_df sqrtF j).CONTROL_MEAN = Val.nan := hm
  have hUU : (run_pipeline_row phi sqrtF ppf j).UPLIFT_UPPER_CI
      = Val.nan := by
    show roundV 4 (((process_df sqrtF j).TREATMENT_MEAN
        - (process_df sqrtF j).CONTROL_MEAN
        + Val.fin (ppf (95/100))
          * sqrtV sqrtF ((process_df sqrtF j)._POOLED_VARIANCE
            * (Val.fin 1 / (process_df sqrtF j).TREATMENT_USERS
              + Val.fin 1 / (process_df sqrtF j).CONTROL_USERS)))
        / (process_df sqrtF j).CONTROL_MEAN) = Val.nan
    rw [hCMr, Val.sub_nan, hP2, Val.nan_mul, sqrtV_nan, Val.mul_nan,
      Val.nan_add, Val.nan_div, roundV_nan]
  have hLL : (run_pipeline_row phi sqrtF ppf j).UPLIFT_LOWER_CI
      = Val.nan := by
    show roundV 4 (((process_df sqrtF j).TREATMENT_MEAN
        - (process_df sqrtF j).CONTROL_MEAN
        - Val.fin (ppf (95/100))
          * sqrtV sqrtF ((process_df sqrtF j)._POOLED_VARIANCE
            * (Val.fin 1 / (process_df sqrtF j).TREATMENT_USERS
              + Val.fin 1 / (process_df sqrtF j).CONTROL_USERS)))
        / (process_df sqrtF j).CONTROL_MEAN) = Val.nan
    rw [hCMr, Val.sub_nan, hP2, Val.nan_mul, sqrtV_nan, Val.mul_nan,
      Val.nan_sub, Val.nan_div, roundV_nan]
  exact ⟨hPV, hP2, hZ, hU, hPval, hUU, hLL, hFlag, hColor⟩

/-- C5.  The baseline join is a left join: every treatment row
(`VARIANT_DEFAULT = 0`) — matched or not — survives into the output of
`join_control_to_variant` carrying its own treatment statistics; and
when no control row shares its metric, the surviving output row carries
NaN (pandas null) control statistics, and those nulls propagate as NaN —
not zero — into every downstream derived field (pooled variances,
z-score, p-value, uplift and both uplift CI bounds), with the flag false
and the neutral gray color; nothing raises. -/
theorem C5_left_join_null_propagation (phi sqrtF ppf : ℚ → ℚ)
    (tbl : List KpiRow) (v : KpiRow)
    (hv : v ∈ tbl) (hvd : v.VARIANT_DEFAULT = 0) :
    (∃ j ∈ join_control_to_variant tbl,
      j.VARIANT_NAME = v.VARIANT_NAME ∧ j.KPI = v.KPI ∧
      j.mean_EXP = v.mean ∧ j.var_EXP = v.var ∧ j.count_EXP = v.count) ∧
    ((∀ c ∈ tbl, c.VARIANT_DEFAULT = 1 → c.KPI ≠ v.KPI) →
      ∃ j ∈ join_control_to_variant tbl,
        j.VARIANT_NAME = v.VARIANT_NAME ∧ j.KPI = v.KPI ∧
        j.mean_EXP = v.mean ∧ j.var_EXP = v.var ∧ j.count_EXP = v.count ∧
        j.mean_CONTROL = Val.nan ∧ j.var_CONTROL = Val.nan ∧
        j.count_CONTROL = Val.nan ∧
        (run_pipeline_row phi sqrtF ppf j).POOLED_VARIANCE = Val.nan ∧
        (run_pipeline_row phi sqrtF ppf j).Z_SCORE = Val.nan ∧
        (run_pipeline_row phi sqrtF ppf j).P_VALUE = Val.nan ∧
        (run_pipeline_row phi sqrtF ppf j).TREATMENT_UPLIFT = Val.nan ∧
        (run_pipeline_row phi sqrtF ppf j).UPLIFT_UPPER_CI = Val.nan ∧
        (run_pipeline_row phi sqrtF ppf j).UPLIFT_LOWER_CI = Val.nan ∧
        (run_pipeline_row phi sqrtF ppf j).IS_STATISTICALLY_SIGNIFICANT
          = false ∧
        (run_pipeline_row phi sqrtF ppf j).COLOR = "#CFCFC4") := by
  have hvmem : v ∈ tbl.filter (fun r => decide (r.VARIANT_DEFAULT = 0)) :=
    List.mem_filter.mpr ⟨hv, by rw [hvd]; simp⟩
  constructor
  · rcases hms : (tbl.filter
        (fun r => decide (r.VARIANT_DEFAULT = 1))).filter
        (fun c => decide (c.KPI = v.KPI)) with _ | ⟨c, cs⟩
    · refine
        ⟨{ VARIANT_NAME := v.VARIANT_NAME,
           VARIANT_DEFAULT := v.VARIANT_DEFAULT, KPI := v.KPI,
           mean_EXP := v.mean, var_EXP := v.var, count_EXP := v.count,
           mean_CONTROL := Val.nan, var_CONTROL := Val.nan,
           count_CONTROL := Val.nan }, ?_, rfl, rfl, rfl, rfl, rfl⟩
      unfold join_control_to_variant
      refine List.mem_flatMap.mpr ⟨v, hvmem, ?_⟩
      rw [hms]
      simp
    · refine
        ⟨{ VARIANT_NAME := v.VARIANT_NAME,
           VARIANT_DEFAULT := v.VARIANT_DEFAULT, KPI := v.KPI,
           mean_EXP := v.mean, var_EXP := v.var, count_EXP := v.count,
           mean_CONTROL := c.mean, var_CONTROL := c.var,
           count_CONTROL := c.count }, ?_, rfl, rfl, rfl, rfl, rfl⟩
      unfold join_control_to_variant
      refine List.mem_flatMap.mpr ⟨v, hvmem, ?_⟩
      rw [hms]
      simp
  · intro hnc
    have hempty : (tbl.filter
        (fun r => decide (r.VARIANT_DEFAULT = 1))).filter
        (fun c => decide (c.KPI = v.KPI)) = [] := by
      rw [List.filter_eq_nil]
      intro c hcmem
      obtain ⟨hctbl, hcd⟩ := List.mem_filter.mp hcmem
      have hcd1 : c.VARIANT_DEFAULT = 1 := of_decide_eq_true hcd
      simp [hnc c hctbl hcd1]
    have hprop := pipeline_nan_controls phi sqrtF ppf
      { VARIANT_NAME := v.VARIANT_NAME, VARIANT_DEFAULT := v.VARIANT_DEFAULT,
        KPI := v.KPI, mean_EXP := v.mean, var_EXP := v.var,
        count_EXP := v.count, mean_CONTROL := Val.nan,
        var_CONTROL := Val.nan, count_CONTROL := Val.nan } rfl rfl
    refine
      ⟨{ VARIANT_NAME := v.VARIANT_NAME,
         VARIANT_DEFAULT := v.VARIANT_DEFAULT,
         KPI := v.KPI, mean_EXP := v.mean, var_EXP := v.var,
         count_EXP := v.count, mean_CONTROL := Val.nan,
         var_CONTROL := Val.nan, count_CONTROL := Val.nan }, ?_,
       rfl, rfl, rfl, rfl, rfl, rfl, rfl, rfl,
       hprop.1, hprop.2.2.1, hprop.2.2.2.2.1, hprop.2.2.2.1,
       hprop.2.2.2.2.2.1, hprop.2.2.2.2.2.2.1, hprop.2.2.2.2.2.2.2.1,
       hprop.2.2.2.2.2.2.2.2⟩
    unfold join_control_to_variant
    refine List.mem_flatMap.mpr ⟨v, hvmem, ?_⟩
    rw [hempty]
    simp

/-- Witness for C5: a one-row table holding a single treatment row with
no control row at all; both the unconditional survival part and the
discharged no-matching-control part. -/
theorem C5_left_join_null_propagation_witness :
    (∃ j ∈ join_control_to_variant [dupTreatRow],
      j.VARIANT_NAME = dupTreatRow.VARIANT_NAME ∧ j.KPI = dupTreatRow.KPI ∧
      j.mean_EXP = dupTreatRow.mean ∧ j.var_EXP = dupTreatRow.var ∧
      j.count_EXP = dupTreatRow.count) ∧
    ∃ j ∈ join_control_to_variant [dupTreatRow],
      j.VARIANT_NAME = dupTreatRow.VARIANT_NAME ∧ j.KPI = dupTreatRow.KPI ∧
      j.mean_EXP = dupTreatRow.mean ∧ j.var_EXP = dupTreatRow.var ∧
      j.count_EXP = dupTreatRow.count ∧
      j.mean_CONTROL = Val.nan ∧ j.var_CONTROL = Val.nan ∧
      j.count_CONTROL = Val.nan ∧
      (run_pipeline_row phi0 sqrt0 ppf0 j).POOLED_VARIANCE = Val.nan ∧
      (run_pipeline_row phi0 sqrt0 ppf0 j).Z_SCORE = Val.nan ∧
      (run_pipeline_row phi0 sqrt0 ppf0 j).P_VALUE = Val.nan ∧
      (run_pipeline_row phi0 sqrt0 ppf0 j).TREATMENT_UPLIFT = Val.nan ∧
      (run_pipeline_row phi0 sqrt0 ppf0 j).UPLIFT_UPPER_CI = Val.nan ∧
      (run_pipeline_row phi0 sqrt0 ppf0 j).UPLIFT_LOWER_CI = Val.nan ∧
      (run_pipeline_row phi0 sqrt0 ppf0 j).IS_STATISTICALLY_SIGNIFICANT
        = false ∧
      (run_pipeline_row phi0 sqrt0 ppf0 j).COLOR = "#CFCFC4" := by
  have h := C5_left_join_null_propagation phi0 sqrt0 ppf0 [dupTreatRow]
    dupTreatRow (by simp) rfl
  exact ⟨h.1, h.2 (by
    intro c hc hcd
    rw [List.mem_singleton] at hc
    subst hc
    exact absurd hcd (by norm_num [dupTreatRow]))⟩

theorem roundV_fin (dp : ℕ) (q : ℚ) : roundV dp (Val.fin q) = Val.fin (roundTo dp q) := rfl

/-- Closed form of the two rounded uplift-CI fields on a row with finite
inputs (nonzero counts, nonzero pooled-variance denominator, nonnegative
half-width argument, nonzero control mean). -/
theorem uplift_ci_closed_form (phi sqrtF ppf : ℚ → ℚ) (j : JoinedRow)
    (tm cm vE vC nE nC : ℚ)
    (htm : j.mean_EXP = Val.fin tm) (hcm : j.mean_CONTROL = Val.fin cm)
    (hvE : j.var_EXP = Val.fin vE) (hvC : j.var_CONTROL = Val.fin vC)
    (hnE : j.count_EXP = Val.fin nE) (hnC : j.count_CONTROL = Val.fin nC)
    (hnE0 : nE ≠ 0) (hnC0 : nC ≠ 0) (hden : nC + nE - 2 ≠ 0)
    (harg : ¬ ((vC * (nC - 1) + vE * (nE - 1)) / (nC + nE - 2)
      * (1 / nE + 1 / nC) < 0))
    (hcm0 : cm ≠ 0) :
    (run_pipeline_row phi sqrtF ppf j).UPLIFT_UPPER_CI
      = Val.fin (roundTo 4 ((tm - cm
          + ppf (95/100) * sqrtF ((vC * (nC - 1) + vE * (nE - 1))
            / (nC + nE - 2) * (1 / nE + 1 / nC))) / cm)) ∧
    (run_pipeline_row phi sqrtF ppf j).UPLIFT_LOWER_CI
      = Val.fin (roundTo 4 ((tm - cm
          - ppf (95/100) * sqrtF ((vC * (nC - 1) + vE * (nE - 1))
            / (nC + nE - 2) * (1 / nE + 1 / nC))) / cm)) := by
  have hPV2 : (process_df sqrtF j)._POOLED_VARIANCE
      = Val.fin ((vC * (nC - 1) + vE * (nE - 1)) / (nC + nE - 2)) := by
    show (j.var_CONTROL * (j.count_CONTROL - Val.fin 1)
        + j.var_EXP * (j.count_EXP - Val.fin 1))
        / (j.count_CONTROL + j.count_EXP - Val.fin 2) = _
    rw [hvC, hvE, hnC, hnE]
    simp only [Val.fin_sub_fin, Val.fin_mul_fin, Val.fin_add_fin]
    rw [Val.fin_div_fin _ hden]
  have hfrac : Val.fin 1 / j.count_EXP + Val.fin 1 / j.count_CONTROL
      = Val.fin (1 / nE + 1 / nC) := by
    rw [hnE, hnC, Val.fin_div_fin 1 hnE0, Val.fin_div_fin 1 hnC0,
      Val.fin_add_fin]
  have hHW : sqrtV sqrtF ((process_df sqrtF j)._POOLED_VARIANCE
      * (Val.fin 1 / j.count_EXP + Val.fin 1 / j.count_CONTROL))
      = Val.fin (sqrtF ((vC * (nC - 1) + vE * (nE - 1)) / (nC + nE - 2)
        * (1 / nE + 1 / nC))) := by
    rw [hPV2, hfrac, Val.fin_mul_fin, sqrtV_fin, if_neg harg]
  constructor
  · show roundV 4 ((j.mean_EXP - j.mean_CONTROL
        + Val.fin (ppf (95/100))
          * sqrtV sqrtF ((process_df sqrtF j)._POOLED_VARIANCE
            * (Val.fin 1 / j.count_EXP + Val.fin 1 / j.count_CONTROL)))
        / j.mean_CONTROL) = _
    rw [hHW, htm, hcm, Val.fin_sub_fin, Val.fin_mul_fin, Val.fin_add_fin,
      Val.fin_div_fin _ hcm0, roundV_fin]
  · show roundV 4 ((j.mean_EXP - j.mean_CONTROL
        - Val.fin (ppf (95/100))
          * sqrtV sqrtF ((process_df sqrtF j)._POOLED_VARIANCE
            * (Val.fin 1 / j.count_EXP + Val.fin 1 / j.count_CONTROL)))
        / j.mean_CONTROL) = _
    rw [hHW, htm, hcm, Val.fin_sub_fin, Val.fin_mul_fin, Val.fin_sub_fin,
      Val.fin_div_fin _ hcm0, roundV_fin]

/-- C7 (amended).  For every row whose six summary inputs are finite
with nonnegative variances, counts at least 1 (total above 2) and a
positive control mean, the final rounded uplift interval is ordered:
`UPLIFT_LOWER_CI ≤ UPLIFT_UPPER_CI`.  (With a negative control mean the
division flips the interval — see the counterexample.) -/
theorem C7_uplift_ci_order (phi sqrtF ppf : ℚ → ℚ)
    (hsq : ∀ q : ℚ, 0 ≤ q → 0 ≤ sqrtF q) (hppf : 0 ≤ ppf (95/100))
    (j : JoinedRow) (tm cm vE vC nE nC : ℚ)
    (htm : j.mean_EXP = Val.fin tm) (hcm : j.mean_CONTROL = Val.fin cm)
    (hvE : j.var_EXP = Val.fin vE) (hvC : j.var_CONTROL = Val.fin vC)
    (hnE : j.count_EXP = Val.fin nE) (hnC : j.count_CONTROL = Val.fin nC)
    (hvE0 : 0 ≤ vE) (hvC0 : 0 ≤ vC) (hnE1 : 1 ≤ nE) (hnC1 : 1 ≤ nC)
    (hsum : 2 < nE + nC) (hcm0 : 0 < cm) :
    ∃ lo hi : ℚ,
      (run_pipeline_row phi sqrtF ppf j).UPLIFT_LOWER_CI = Val.fin lo ∧
      (run_pipeline_row phi sqrtF ppf j).UPLIFT_UPPER_CI = Val.fin hi ∧
      lo ≤ hi := by
  have hnE0 : nE ≠ 0 := by linarith
  have hnC0 : nC ≠ 0 := by linarith
  have hden : nC + nE - 2 ≠ 0 := by linarith
  have hq2 : 0 ≤ (vC * (nC - 1) + vE * (nE - 1)) / (nC + nE - 2) := by
    apply div_nonneg
    · have h1 : 0 ≤ vC * (nC - 1) :=
        mul_nonneg hvC0 (by linarith)
      have h2 : 0 ≤ vE * (nE - 1) :=
        mul_nonneg hvE0 (by linarith)
      linarith
    · linarith
  have hfr : 0 ≤ 1 / nE + 1 / nC := by
    have h1 : 0 ≤ 1 / nE := by positivity
    have h2 : 0 ≤ 1 / nC := by positivity
    linarith
  have hargn : 0 ≤ (vC * (nC - 1) + vE * (nE - 1)) / (nC + nE - 2)
      * (1 / nE + 1 / nC) := mul_nonneg hq2 hfr
  have hs : 0 ≤ sqrtF ((vC * (nC - 1) + vE * (nE - 1)) / (nC + nE - 2)
      * (1 / nE + 1 / nC)) := hsq _ hargn
  obtain ⟨hU, hL⟩ := uplift_ci_closed_form phi sqrtF ppf j tm cm vE vC nE nC
    htm hcm hvE hvC hnE hnC hnE0 hnC0 hden (not_lt.mpr hargn) (ne_of_gt hcm0)
  refine ⟨_, _, hL, hU, ?_⟩
  apply roundTo_mono
  apply div_le_div_of_nonneg_right ?_ hcm0.le
  have hcs : 0 ≤ ppf (95/100) * sqrtF ((vC * (nC - 1) + vE * (nE - 1))
      / (nC + nE - 2) * (1 / nE + 1 / nC)) := mul_nonneg hppf hs
  linarith

/-- Witness for the amended C7 at the specification's concrete scenario
row (control mean 10 is positive). -/
theorem C7_uplift_ci_order_witness :
    ∃ lo hi : ℚ,
      (run_pipeline_row phi0 sqrt0 ppf0 exampleInputRow).UPLIFT_LOWER_CI
        = Val.fin lo ∧
      (run_pipeline_row phi0 sqrt0 ppf0 exampleInputRow).UPLIFT_UPPER_CI
        = Val.fin hi ∧
      lo ≤ hi :=
  C7_uplift_ci_order phi0 sqrt0 ppf0
    (by
      intro q hq
      unfold sqrt0
      split_ifs <;> norm_num)
    (by norm_num [ppf0])
    exampleInputRow 11 10 5 4 100 100 rfl rfl rfl rfl rfl rfl
    (by norm_num) (by norm_num) (by norm_num) (by norm_num)
    (by norm_num) (by norm_num)

/-- The scenario row with negative means: control mean −10, treatment
mean −9, variances 4 and 5, counts 100 — all inputs finite. -/
def negControlRow : JoinedRow :=
  { VARIANT_NAME := "treatment"
    VARIANT_DEFAULT := 0
    KPI := "metric"
    mean_EXP := Val.fin (-9)
    var_EXP := Val.fin 5
    count_EXP := Val.fin 100
    mean_CONTROL := Val.fin (-10)
    var_CONTROL := Val.fin 4
    count_CONTROL := Val.fin 100 }

/-- Counterexample to C7 as stated: on the all-finite row with control
mean −10 and treatment mean −9 the division by the negative control
mean flips the interval, and after the final rounding
`UPLIFT_LOWER_CI = −0.0507 > −0.1493 = UPLIFT_UPPER_CI`. -/
theorem C7_uplift_ci_counterexample :
    (run_pipeline_row phi0 sqrt0 ppf0 negControlRow).UPLIFT_LOWER_CI
      = Val.fin (-507/10000) ∧
    (run_pipeline_row phi0 sqrt0 ppf0 negControlRow).UPLIFT_UPPER_CI
      = Val.fin (-1493/10000) ∧
    ¬ ((-507:ℚ)/10000 ≤ -1493/10000) := by
  have hs : sqrt0 (((4:ℚ) * (100 - 1) + 5 * (100 - 1)) / (100 + 100 - 2)
      * (1 / 100 + 1 / 100)) = 3/10 := by
    rw [show ((4:ℚ) * (100 - 1) + 5 * (100 - 1)) / (100 + 100 - 2)
        * (1 / 100 + 1 / 100) = 9/100 by norm_num]
    simp [sqrt0]
  obtain ⟨hU, hL⟩ := uplift_ci_closed_form phi0 sqrt0 ppf0 negControlRow
    (-9) (-10) 5 4 100 100 rfl rfl rfl rfl rfl rfl
    (by norm_num) (by norm_num) (by norm_num) (by norm_num) (by norm_num)
  have hfU : (⌊(-149347:ℚ)/100⌋ : ℤ) = -1494 := by
    rw [Int.floor_eq_iff]
    constructor <;> norm_num
  have hrU : roundHalfEven ((-149347:ℚ)/100) = -1493 := by
    unfold roundHalfEven
    rw [hfU]
    norm_num
  have hRU : roundTo 4 ((-149347:ℚ)/1000000) = -1493/10000 := by
    unfold roundTo
    rw [show ((-149347:ℚ)/1000000 * (10:ℚ)^(4:ℕ)) = -149347/100 by
      norm_num, hrU]
    norm_num
  have hfL : (⌊(-50653:ℚ)/100⌋ : ℤ) = -507 := by
    rw [Int.floor_eq_iff]
    constructor <;> norm_num
  have hrL : roundHalfEven ((-50653:ℚ)/100) = -507 := by
    unfold roundHalfEven
    rw [hfL]
    norm_num
  have hRL : roundTo 4 ((-50653:ℚ)/1000000) = -507/10000 := by
    unfold roundTo
    rw [show ((-50653:ℚ)/1000000 * (10:ℚ)^(4:ℕ)) = -50653/100 by
      norm_num, hrL]
    norm_num
  refine ⟨?_, ?_, by norm_num⟩
  · rw [hL, ppf0, hs]
    rw [show ((-9:ℚ) - -10 - 16449/10000 * (3/10)) / -10
        = (-50653:ℚ)/1000000 by norm_num]
    rw [hRL]
  · rw [hU, ppf0, hs]
    rw [show ((-9:ℚ) - -10 + 16449/10000 * (3/10)) / -10
        = (-149347:ℚ)/1000000 by norm_num]
    rw [hRU]

theorem find?_isSome_of_mem {α : Type} (p : α → Bool) (l : List α) (a : α)
    (ha : a ∈ l) (hp : p a = true) : ∃ b, l.find? p = some b := by
  induction l with
  | nil => cases ha
  | cons x xs ih =>
      by_cases hx : p x = true
      · exact ⟨x, by rw [List.find?_cons_of_pos _ hx]⟩
      · have ha2 : a ∈ xs := by
          rcases List.mem_cons.mp ha with h | h
          · subst h
            exact absurd hp hx
          · exact h
        obtain ⟨b, hb⟩ := ih ha2
        exact ⟨b, by
          rw [List.find?_cons_of_neg _ (by simpa using hx), hb]⟩

/-- C8.  Running `ExperimentSummaryStats.transform` on a table missing a
required column — `VARIANT_NAME`, `VARIANT_DEFAULT` or any requested
metric column — raises (`KeyError`, surfaced as `Except.error`) at the
very first grouping/column-selection step, before any statistic is
computed, and no output table is produced. -/
theorem C8_schema_rejection (t : ObsTable) (metrics : List String)
    (hmiss : t.hasVariantName = false ∨ t.hasVariantDefault = false ∨
      ∃ m ∈ metrics, ¬ m ∈ t.metricCols) :
    ∃ e : String,
      ExperimentSummaryStats.transform t metrics = .error e := by
  cases hvn : t.hasVariantName with
  | false =>
      exact ⟨"KeyError: VARIANT_NAME", by
        unfold ExperimentSummaryStats.transform get_summary_statistics
        rw [hvn]
        rfl⟩
  | true =>
      cases hvd : t.hasVariantDefault with
      | false =>
          exact ⟨"KeyError: VARIANT_DEFAULT", by
            unfold ExperimentSummaryStats.transform get_summary_statistics
            rw [hvn, hvd]
            rfl⟩
      | true =>
          rcases hmiss with h | h | ⟨m, hm, hnot⟩
          · rw [hvn] at h
            cases h
          · rw [hvd] at h
            cases h
          · obtain ⟨m2, hfind⟩ := find?_isSome_of_mem
              (fun m => !(decide (m ∈ t.metricCols))) metrics m hm
              (by simp [hnot])
            exact ⟨"KeyError: " ++ m2, by
              unfold ExperimentSummaryStats.transform get_summary_statistics
              rw [hvn, hvd, hfind]
              rfl⟩

/-- A table whose `VARIANT_NAME` column is missing. -/
def missingColumnTable : ObsTable :=
  { hasVariantName := false
    hasVariantDefault := true
    metricCols := []
    rows := [] }

/-- Witness for C8 on a concrete malformed table. -/
theorem C8_schema_rejection_witness :
    ∃ e : String,
      ExperimentSummaryStats.transform missingColumnTable [] = .error e :=
  C8_schema_rejection missingColumnTable [] (Or.inl rfl)

/-- C10.  Each of the three public entry points leaves the
caller-supplied dataframe unchanged: the constructors copy the input
(`self.df = df.copy()`) into a fresh heap reference, and every in-place
column addition or rename happens on that internal copy only, so for
every heap and every already-allocated caller reference the caller's
frame is identical after the call. -/
theorem C10_caller_df_unchanged (phi sqrtF ppf : ℚ → ℚ)
    (metrics : List String) (s : HeapState) (r : ℕ) (hr : r < s.next) :
    (ABDataProcessor.run_process_data phi sqrtF ppf s r).1.heap r
      = s.heap r ∧
    (ExperimentSummaryStats.run_transform metrics s r).1.heap r
      = s.heap r ∧
    (DFABTestProcessor.run_process_df sqrtF s r).1.heap r = s.heap r := by
  have hne : r ≠ s.next := by omega
  unfold ABDataProcessor.run_process_data ExperimentSummaryStats.run_transform
    DFABTestProcessor.run_process_df initProcessor
  simp [heapWrite, hne]

/-- A one-reference heap holding an empty joined table. -/
def heap0 : HeapState :=
  { heap := fun _ => Frame.joinedF []
    next := 1 }

/-- Witness for C10 on a concrete heap. -/
theorem C10_caller_df_unchanged_witness :
    (ABDataProcessor.run_process_data phi0 sqrt0 ppf0 heap0 0).1.heap 0
      = heap0.heap 0 ∧
    (ExperimentSummaryStats.run_transform [] heap0 0).1.heap 0
      = heap0.heap 0 ∧
    (DFABTestProcessor.run_process_df sqrt0 heap0 0).1.heap 0
      = heap0.heap 0 :=
  C10_caller_df_unchanged phi0 sqrt0 ppf0 [] heap0 0 (by norm_num [heap0])

theorem mem_firstDedup {α : Type} [DecidableEq α] (a : α) (l : List α) :
    a ∈ firstDedup l ↔ a ∈ l := by
  induction l with
  | nil => simp [firstDedup]
  | cons x xs ih =>
      simp only [firstDedup, List.mem_cons, List.mem_filter,
        decide_eq_true_eq, ih]
      constructor
      · rintro (h | ⟨h1, _⟩)
        · exact Or.inl h
        · exact Or.inr h1
      · rintro (h | h)
        · exact Or.inl h
        · by_cases hax : a = x
          · exact Or.inl hax
          · exact Or.inr ⟨h, hax⟩

/-- The first summary row carrying a given (variant, is-default,
statistic) index in the stacked summary is the aggregation row of that
group: the pivot reads back exactly the group's statistic. -/
theorem find_statRow (rows : List ObsRow) (keys : List (String × ℚ))
    (vn : String) (vd : ℚ) (hk : (vn, vd) ∈ keys) (st : Stat) :
    (keys.flatMap (fun k2 => [statRow rows k2 .mean, statRow rows k2 .var,
        statRow rows k2 .count])).find?
      (fun s => decide (s.VARIANT_NAME = vn ∧ s.VARIANT_DEFAULT = vd ∧
        s.STATISTIC = st)) = some (statRow rows (vn, vd) st) := by
  induction keys with
  | nil => cases hk
  | cons k2 rest ih =>
      rw [List.flatMap_cons]
      by_cases hkk : k2 = (vn, vd)
      · subst hkk
        cases st with
        | mean =>
            rw [List.cons_append, List.find?_cons_of_pos _ (by
              simp [statRow])]
        | var =>
            rw [List.cons_append, List.find?_cons_of_neg _ (by
              simp [statRow]),
              List.cons_append, List.find?_cons_of_pos _ (by
              simp [statRow])]
        | count =>
            rw [List.cons_append, List.find?_cons_of_neg _ (by
              simp [statRow]),
              List.cons_append, List.find?_cons_of_neg _ (by
              simp [statRow]),
              List.cons_append, List.find?_cons_of_pos _ (by
              simp [statRow])]
      · have hne : ¬ (k2.1 = vn ∧ k2.2 = vd) := by
          intro hcomp
          exact hkk (Prod.ext hcomp.1 hcomp.2)
        have hkr : (vn, vd) ∈ rest := by
          rcases List.mem_cons.mp hk with h | h
          · exact absurd h.symm hkk
          · exact h
        rw [List.cons_append, List.find?_cons_of_neg _ (by
            simp only [statRow, decide_eq_true_eq]
            intro hcomp
            exact hne ⟨hcomp.1, hcomp.2.1⟩),
          List.cons_append, List.find?_cons_of_neg _ (by
            simp only [statRow, decide_eq_true_eq]
            intro hcomp
            exact hne ⟨hcomp.1, hcomp.2.1⟩),
          List.cons_append, List.find?_cons_of_neg _ (by
            simp only [statRow, decide_eq_true_eq]
            intro hcomp
            exact hne ⟨hcomp.1, hcomp.2.1⟩),
          List.nil_append]
        exact ih hkr

/-- The stacked summary of `get_summary_statistics`, as a pure list. -/
def summaryRowsOf (rows : List ObsRow) : List SummaryRow :=
  (firstDedup (rows.map (fun r => (r.VARIANT_NAME, r.VARIANT_DEFAULT)))).flatMap
    (fun k => [statRow rows k .mean, statRow rows k .var,
               statRow rows k .count])

/-- The reshaped summary contains, for every group key present in the
input rows and every requested metric, the row carrying that group's
mean, variance and count of the metric. -/
theorem transform_summary_mem (rows : List ObsRow) (metrics : List String)
    (vn : String) (vd : ℚ) (m : String)
    (hk : (vn, vd) ∈ rows.map (fun r => (r.VARIANT_NAME, r.VARIANT_DEFAULT)))
    (hm : m ∈ metrics) :
    ({ VARIANT_NAME := vn, VARIANT_DEFAULT := vd, KPI := m,
       mean := colMean (groupColumn rows (vn, vd) m),
       var := colVar (groupColumn rows (vn, vd) m),
       count := Val.fin (colCount (groupColumn rows (vn, vd) m)) } : KpiRow)
      ∈ transform_summary_statistics (summaryRowsOf rows) metrics := by
  have hki : (vn, vd) ∈ firstDedup (rows.map
      (fun r => (r.VARIANT_NAME, r.VARIANT_DEFAULT))) :=
    (mem_firstDedup _ _).mpr hk
  have hsmem : statRow rows (vn, vd) .mean ∈ summaryRowsOf rows := by
    unfold summaryRowsOf
    exact List.mem_flatMap.mpr ⟨(vn, vd), hki, by simp⟩
  have hkey : (vn, vd) ∈ firstDedup ((summaryRowsOf rows).map
      (fun s => (s.VARIANT_NAME, s.VARIANT_DEFAULT))) :=
    (mem_firstDedup _ _).mpr
      (List.mem_map.mpr ⟨statRow rows (vn, vd) .mean, hsmem, rfl⟩)
  have hlook : ∀ st : Stat,
      lookupStat (summaryRowsOf rows) vn vd st m
        = (statRow rows (vn, vd) st).vals m := by
    intro st
    unfold lookupStat summaryRowsOf
    rw [find_statRow rows _ vn vd hki st]
  unfold transform_summary_statistics
  refine List.mem_flatMap.mpr ⟨(vn, vd), hkey, List.mem_map.mpr ⟨m, hm, ?_⟩⟩
  rw [hlook Stat.mean, hlook Stat.var, hlook Stat.count]
  rfl

/-- Every row of the reshaped summary comes from a (variant, is-default)
group actually present in the input, at a requested metric. -/
theorem transform_summary_keys (rows : List ObsRow) (metrics : List String)
    (row : KpiRow)
    (hrow : row ∈ transform_summary_statistics (summaryRowsOf rows) metrics) :
    (∃ r ∈ rows, r.VARIANT_NAME = row.VARIANT_NAME ∧
      r.VARIANT_DEFAULT = row.VARIANT_DEFAULT) ∧ row.KPI ∈ metrics := by
  unfold transform_summary_statistics at hrow
  obtain ⟨k, hkmem, hrow2⟩ := List.mem_flatMap.mp hrow
  obtain ⟨m, hmmem, heq⟩ := List.mem_map.mp hrow2
  have hk2 : k ∈ (summaryRowsOf rows).map
      (fun s => (s.VARIANT_NAME, s.VARIANT_DEFAULT)) :=
    (mem_firstDedup _ _).mp hkmem
  obtain ⟨srow, hsrow, hkeq⟩ := List.mem_map.mp hk2
  have hsrc : ∃ k2 ∈ firstDedup (rows.map
      (fun r => (r.VARIANT_NAME, r.VARIANT_DEFAULT))),
      srow ∈ [statRow rows k2 .mean, statRow rows k2 .var,
        statRow rows k2 .count] := List.mem_flatMap.mp hsrow
  obtain ⟨k2, hk2mem, hsin⟩ := hsrc
  have hsin2 : srow = statRow rows k2 .mean ∨ srow = statRow rows k2 .var ∨
      srow = statRow rows k2 .count := by simpa using hsin
  have hkk2 : k = k2 := by
    rcases hsin2 with h | h | h <;> rw [← hkeq, h] <;> rfl
  have hkrows : k ∈ rows.map (fun r => (r.VARIANT_NAME, r.VARIANT_DEFAULT)) := by
    rw [hkk2]
    exact (mem_firstDedup _ _).mp hk2mem
  obtain ⟨r, hr, hreq⟩ := List.mem_map.mp hkrows
  subst heq
  refine ⟨⟨r, hr, ?_, ?_⟩, hmmem⟩
  · show r.VARIANT_NAME = k.1
    rw [← hreq]
  · show r.VARIANT_DEFAULT = k.2
    rw [← hreq]

/-- When `get_summary_statistics` succeeds, its output is the stacked
per-group summary `summaryRowsOf`. -/
theorem get_summary_ok_eq (t : ObsTable) (metrics : List String)
    (srows : List SummaryRow)
    (hok : get_summary_statistics t metrics = .ok srows) :
    srows = summaryRowsOf t.rows := by
  unfold get_summary_statistics at hok
  split_ifs at hok with h1 h2
  rcases hfd : metrics.find? (fun m => !(decide (m ∈ t.metricCols)))
    with _ | m2
  · simp only [hfd, Except.ok.injEq] at hok
    exact hok.symm
  · simp only [hfd] at hok
    simp at hok

/-- C9 (amended).  The aggregator does not omit zero-observation groups:
for every (variant, is-default) key present in the input and every
requested metric — including metrics with zero non-null observations in
that group — the reshaped summary contains a row for that (group,
metric) pair, carrying the group's non-null count; when that count is
zero the row is emitted with NaN mean and variance and count 0 rather
than being dropped.  Conversely every summary row does come from a group
key present in the input at a requested metric, so only variants with no
input rows at all are absent. -/
theorem C9_zero_obs_emitted (t : ObsTable) (metrics : List String)
    (srows : List SummaryRow)
    (hok : get_summary_statistics t metrics = .ok srows)
    (vn : String) (vd : ℚ) (m : String) (hm : m ∈ metrics)
    (hk : (vn, vd) ∈ t.rows.map
      (fun r => (r.VARIANT_NAME, r.VARIANT_DEFAULT))) :
    (({ VARIANT_NAME := vn, VARIANT_DEFAULT := vd, KPI := m,
        mean := colMean (groupColumn t.rows (vn, vd) m),
        var := colVar (groupColumn t.rows (vn, vd) m),
        count := Val.fin (colCount (groupColumn t.rows (vn, vd) m)) } : KpiRow)
      ∈ transform_summary_statistics srows metrics) ∧
    (colCount (groupColumn t.rows (vn, vd) m) = 0 →
      colMean (groupColumn t.rows (vn, vd) m) = Val.nan ∧
      colVar (groupColumn t.rows (vn, vd) m) = Val.nan) ∧
    (∀ row ∈ transform_summary_statistics srows metrics,
      (∃ r ∈ t.rows, r.VARIANT_NAME = row.VARIANT_NAME ∧
        r.VARIANT_DEFAULT = row.VARIANT_DEFAULT) ∧ row.KPI ∈ metrics) := by
  have hsr := get_summary_ok_eq t metrics srows hok
  subst hsr
  refine ⟨transform_summary_mem t.rows metrics vn vd m hk hm, ?_,
    fun row hrow => transform_summary_keys t.rows metrics row hrow⟩
  intro h0
  constructor
  · unfold colMean
    rw [if_pos h0]
  · unfold colVar
    rw [if_pos (by omega)]

/-- An observation table for the zero-observation scenario: metric
columns `m1` and `m2`, where `m2` is NaN in every row — every group has
zero observations of `m2`. -/
def zeroObsRowA : ObsRow :=
  { VARIANT_NAME := "A"
    VARIANT_DEFAULT := 1
    vals := fun s => if s = "m1" then Val.fin 5 else Val.nan }

/-- Second observation row of the zero-observation scenario. -/
def zeroObsRowB : ObsRow :=
  { VARIANT_NAME := "B"
    VARIANT_DEFAULT := 0
    vals := fun s => if s = "m1" then Val.fin 6 else Val.nan }

/-- The zero-observation scenario table. -/
def zeroObsTable : ObsTable :=
  { hasVariantName := true
    hasVariantDefault := true
    metricCols := ["m1", "m2"]
    rows := [zeroObsRowA, zeroObsRowB] }

/-- Counterexample to C9 as stated: on the concrete table where variant
`A` has zero (all-NaN) observations of metric `m2`, the aggregator with
`stack(future_stack=True)` does not omit the group — the reshaped
summary output contains the row (`A`, default, `m2`) with NaN mean, NaN
variance and count 0. -/
theorem C9_zero_obs_counterexample :
    ({ VARIANT_NAME := "A", VARIANT_DEFAULT := 1, KPI := "m2",
       mean := Val.nan, var := Val.nan, count := Val.fin 0 } : KpiRow)
      ∈ okRows (summary_pipeline zeroObsTable ["m1", "m2"]) := by
  have hmem := transform_summary_mem zeroObsTable.rows ["m1", "m2"]
    "A" 1 "m2"
    (by simp [zeroObsTable, zeroObsRowA, zeroObsRowB])
    (by simp)
  have h1 : colMean (groupColumn zeroObsTable.rows ("A", 1) "m2")
      = Val.nan := rfl
  have h2 : colVar (groupColumn zeroObsTable.rows ("A", 1) "m2")
      = Val.nan := rfl
  have h3 : colCount (groupColumn zeroObsTable.rows ("A", 1) "m2") = 0 := rfl
  rw [h1, h2, h3, Nat.cast_zero] at hmem
  exact hmem

/-- Witness for the amended C9 on the concrete zero-observation table. -/
theorem C9_zero_obs_emitted_witness :
    (({ VARIANT_NAME := "A", VARIANT_DEFAULT := 1, KPI := "m2",
        mean := colMean (groupColumn zeroObsTable.rows ("A", 1) "m2"),
        var := colVar (groupColumn zeroObsTable.rows ("A", 1) "m2"),
        count := Val.fin (colCount
          (groupColumn zeroObsTable.rows ("A", 1) "m2")) } : KpiRow)
      ∈ transform_summary_statistics (summaryRowsOf zeroObsTable.rows)
        ["m1", "m2"]) ∧
    colMean (groupColumn zeroObsTable.rows ("A", 1) "m2") = Val.nan ∧
    colVar (groupColumn zeroObsTable.rows ("A", 1) "m2") = Val.nan := by
  have h := C9_zero_obs_emitted zeroObsTable ["m1", "m2"]
    (summaryRowsOf zeroObsTable.rows) rfl "A" 1 "m2"
    (by simp)
    (by simp [zeroObsTable, zeroObsRowA, zeroObsRowB])
  exact ⟨h.1, h.2.1 rfl⟩

end ABTestPipeline
